import Mathlib

/-!
Verification of the smart-chat-bot backend core: a shallow embedding of the
embeddings gateway, the semantic retriever, the tenant resolver, the tool
executor and the conversation orchestrator, with theorems about the
specified behaviour of each component.

External collaborators (the embedding provider, the vector store, the
commerce platform, the LLM endpoint) are modelled as scripted oracles:
pure functions supplied as parameters whose responses drive the embedded
control flow, mirroring the request/response boundaries of the source.
-/

deriving instance DecidableEq for Except

namespace SCB

/-- Character-level trim of both ends, modelling `String.prototype.trim`. -/
def trimChars (cs : List Char) : List Char :=
  ((cs.dropWhile Char.isWhitespace).reverse.dropWhile Char.isWhitespace).reverse

/-- Trim a string, modelling the JS `text.trim()` calls of the source. -/
def strTrim (s : String) : String :=
  String.mk (trimChars s.data)

/-- Substring containment test on char lists. -/
def includesChars : List Char → List Char → Bool
  | [], ns => ns.isEmpty
  | h :: t, ns => ns.isPrefixOf (h :: t) || includesChars t ns

/-- Substring containment, modelling the JS `message.includes(needle)` calls. -/
def strIncludes (hay needle : String) : Bool :=
  includesChars hay.data needle.data

/-- Pair each element with its position, modelling `array.map((x, i) => ...)`. -/
def withIdx : Nat → List α → List (Nat × α)
  | _, [] => []
  | n, a :: l => (n, a) :: withIdx (n + 1) l

/-- Structural worker for `chunksOf`; `fuel` bounds the recursion depth and
is insensitive to its exact value as long as it is at least the list
length. -/
def chunksOfAux (k : Nat) : Nat → List α → List (List α)
  | _, [] => []
  | 0, _ :: _ => []
  | fuel + 1, a :: l =>
    if k = 0 then []
    else (a :: l).take k :: chunksOfAux k fuel ((a :: l).drop k)

/-- Split a list into consecutive chunks of size at most `k`, modelling the
`for (let i = 0; i < xs.length; i += k) xs.slice(i, i + k)` loops of the source. -/
def chunksOf (k : Nat) (l : List α) : List (List α) :=
  chunksOfAux k l.length l

section Embeddings

/-- Embedding vectors; the provider returns fixed-length numeric vectors,
modelled as integer lists (the dimension plays no role in the claims). -/
abbrev Vec := List Int

/-- One entry of the provider's `data` array: an embedding tagged with the
index the provider assigned to it. -/
structure TaggedVec where
  idx : Nat
  vec : Vec
deriving DecidableEq

/-- Provider oracle for one embeddings call: maps the `input` string array of
the request to the `data` array of the response. -/
abbrev EmbedProvider := List String → List TaggedVec

/-- Maximum number of texts per provider call (`MAX_BATCH_SIZE`). -/
def MAX_BATCH_SIZE : Nat := 128

/-- Maximum number of upstream attempts (`MAX_RETRIES`). -/
def MAX_RETRIES : Nat := 3

/-- Base delay for exponential backoff (`INITIAL_RETRY_DELAY_MS`). -/
def INITIAL_RETRY_DELAY_MS : Nat := 1000

/-- Insert a `(vector, original index)` pair into a list sorted by index;
building block for the `results.sort((a, b) => a.index - b.index)` call. -/
def insertByIdx (x : Vec × Nat) : List (Vec × Nat) → List (Vec × Nat)
  | [] => [x]
  | y :: t => if x.2 ≤ y.2 then x :: y :: t else y :: insertByIdx x t

/-- Sort `(vector, original index)` pairs by ascending index, modelling
`results.sort((a, b) => a.index - b.index)` (indices are pairwise distinct,
so any comparison sort computes the same list). -/
def sortByIdx (l : List (Vec × Nat)) : List (Vec × Nat) :=
  l.foldr insertByIdx []

/-- Result of `embedBatch`: the value returned (or the error thrown) together
with the log of `input` arrays sent upstream, one entry per provider call. -/
structure BatchOut where
  result : Except String (List Vec)
  calls : List (List String)
deriving DecidableEq

/-- Trimmed texts paired with their original indices
(`texts.map((t, i) => ({text: t?.trim() ?? '', index: i}))`). -/
def validTextsOf (texts : List String) : List (String × Nat) :=
  (withIdx 0 texts).map (fun p => (strTrim p.2, p.1))

/-- The entries kept after dropping blank texts
(`validTexts.filter((t) => t.text.length > 0)`). -/
def nonEmptyOf (texts : List String) : List (String × Nat) :=
  (validTextsOf texts).filter (fun p => 0 < p.1.length)

/-- Result rows collected from one provider call: the source's
`response.data.forEach((item, responseIndex) => push(item.embedding,
chunk[responseIndex].index))` pairs each response entry positionally with
the chunk entry at the same offset; the provider's own `item.index` tag is
never read.  Response entries beyond the chunk length are not modelled (the
provider contract returns exactly one entry per input). -/
def chunkResults (provider : EmbedProvider) (chunk : List (String × Nat)) :
    List (Vec × Nat) :=
  List.zipWith (fun (item : TaggedVec) c => (item.vec, c.2))
    (provider (chunk.map (fun c => c.1))) chunk

/-- Shallow embedding of `EmbeddingsService.embedBatch`.  Trims every text,
keeps the non-empty ones with their original indices, chunks them by
`MAX_BATCH_SIZE`, issues one provider call per chunk, collects the tagged
results positionally, sorts by original index and returns the vectors. -/
def embedBatch (provider : EmbedProvider) (texts : List String) : BatchOut :=
  if texts = [] then ⟨.ok [], []⟩ else
  if nonEmptyOf texts = [] then ⟨.error "All texts are empty", []⟩ else
  let chunks := chunksOf MAX_BATCH_SIZE (nonEmptyOf texts)
  let results := chunks.foldl
    (fun acc chunk => acc ++ chunkResults provider chunk) []
  ⟨.ok ((sortByIdx results).map (fun r => r.1)),
    chunks.map (fun c => c.map (fun x => x.1))⟩

/-- Upstream HTTP outcome of one embeddings request: a 2xx response carrying
the parsed `data` array, or a non-2xx response carrying the status code, an
optional `Retry-After` header (seconds) and the error body's `detail` text. -/
inductive UpstreamResp
  | ok (data : List TaggedVec)
  | http (code : Nat) (retryAfter : Option Nat) (detail : String)
deriving DecidableEq

/-- Script of upstream outcomes, one per attempt. -/
abbrev Upstream := Nat → UpstreamResp

/-- Error message built for a non-2xx response, as thrown by the source. -/
def errMsg (code : Nat) (detail : String) : String :=
  "Voyage AI Embeddings API error " ++ toString code ++ ": " ++ detail

/-- Exponential-backoff delay `INITIAL_RETRY_DELAY_MS * 2^attempt`. -/
def backoffDelay (attempt : Nat) : Nat :=
  INITIAL_RETRY_DELAY_MS * 2 ^ attempt

/-- Delay used for a 429 response: `Retry-After * 1000` when the header is
present, exponential backoff otherwise. -/
def rateLimitDelay (retryAfter : Option Nat) (attempt : Nat) : Nat :=
  match retryAfter with
  | some r => r * 1000
  | none => backoffDelay attempt

/-- Trace of one `fetchWithRetry` run: outcome, number of upstream calls
made, and the sleep durations taken between attempts. -/
structure RetryTrace where
  result : Except String (List TaggedVec)
  calls : Nat
  delays : List Nat
deriving DecidableEq

/-- One iteration of the retry loop of `EmbeddingsService.fetchWithRetry`.
The `fuel` argument is `MAX_RETRIES - attempt`; every `continue` of the
source recurses with `attempt + 1`.  A 429 seen before the last attempt
sleeps a rate-limit delay and retries; any other failure path throws an
error message, which the source's catch block retries (with plain backoff)
exactly when the message contains "429" or "fetch" and attempts remain. -/
def fetchLoop (script : Upstream) (attempt : Nat) (delays : List Nat) :
    Nat → RetryTrace
  | 0 => ⟨.error "Max retries exceeded", attempt, delays⟩
  | fuel + 1 =>
    match script attempt with
    | .ok d => ⟨.ok d, attempt + 1, delays⟩
    | .http code ra detail =>
      if code = 429 ∧ attempt < MAX_RETRIES - 1 then
        fetchLoop script (attempt + 1) (delays ++ [rateLimitDelay ra attempt]) fuel
      else if (strIncludes (errMsg code detail) "429"
            || strIncludes (errMsg code detail) "fetch") ∧
          attempt < MAX_RETRIES - 1 then
        fetchLoop script (attempt + 1) (delays ++ [backoffDelay attempt]) fuel
      else ⟨.error (errMsg code detail), attempt + 1, delays⟩

/-- Shallow embedding of `EmbeddingsService.fetchWithRetry`. -/
def fetchWithRetry (script : Upstream) : RetryTrace :=
  fetchLoop script 0 [] MAX_RETRIES

/-- Shallow embedding of `EmbeddingsService.embed`: local validation of the
text, then one retried upstream call, returning the first embedding of the
response `data` array.  Returns the outcome and the number of upstream calls
made.  An empty `data` array on success is modelled as an error (the source
would fail reading `response.data[0].embedding`). -/
def embed (script : Upstream) (text : String) : Except String Vec × Nat :=
  if (strTrim text).length = 0 then (.error "Text cannot be empty", 0)
  else
    match fetchWithRetry script with
    | ⟨.ok d, calls, _⟩ =>
      match d with
      | [] => (.error "empty response data", calls)
      | item :: _ => (.ok item.vec, calls)
    | ⟨.error m, calls, _⟩ => (.error m, calls)

end Embeddings

section Rag

/-- Default catalog-search result cap (`DEFAULT_PRODUCT_LIMIT`). -/
def DEFAULT_PRODUCT_LIMIT : Nat := 5

/-- Default help-search result cap (`DEFAULT_FAQ_LIMIT`). -/
def DEFAULT_FAQ_LIMIT : Nat := 3

/-- Default similarity floor (`DEFAULT_SIMILARITY_THRESHOLD = 0.25`). -/
def DEFAULT_SIMILARITY_THRESHOLD : ℚ := 1 / 4

/-- Resolved `RagService` configuration (`Required<RagConfig>`). -/
structure RagConfigM where
  productLimit : Nat := DEFAULT_PRODUCT_LIMIT
  faqLimit : Nat := DEFAULT_FAQ_LIMIT
  similarityThreshold : ℚ := DEFAULT_SIMILARITY_THRESHOLD

/-- Row returned by the `search_products` store procedure
(`ProductSearchResult`). -/
structure ProductRow where
  id : String
  title : String
  description : Option String
  price : Option ℚ
  currency : String
  image_url : Option String
  category : Option String
  similarity : ℚ
deriving DecidableEq

/-- Row returned by the `search_faqs` store procedure (`FaqSearchResult`). -/
structure FaqRow where
  question : String
  answer : String
  category : Option String
  similarity : ℚ
deriving DecidableEq

/-- Mapped catalog retrieval hit (`ProductResult`). -/
structure RagProduct where
  id : String
  title : String
  description : Option String
  price : Option ℚ
  currency : String
  imageUrl : Option String
  category : Option String
  similarity : ℚ
deriving DecidableEq

/-- Mapped help retrieval hit (`FaqResult`). -/
structure RagFaq where
  question : String
  answer : String
  category : Option String
  similarity : ℚ
deriving DecidableEq

/-- Field-for-field mapping of a product row into a `ProductResult`. -/
def rowToProduct (p : ProductRow) : RagProduct :=
  ⟨p.id, p.title, p.description, p.price, p.currency, p.image_url, p.category,
    p.similarity⟩

/-- Field-for-field mapping of an FAQ row into a `FaqResult`. -/
def rowToFaq (f : FaqRow) : RagFaq :=
  ⟨f.question, f.answer, f.category, f.similarity⟩

/-- Shallow embedding of `RagService.searchProducts`.  A blank query
short-circuits to an empty list; otherwise the rows the store returned for
the embedded query are filtered by the similarity floor and mapped.  The
store call (query embedding plus nearest-neighbour lookup) is modelled by
the `rows` argument: the `data` the store procedure handed back. -/
def ragSearchProducts (cfg : RagConfigM) (rows : List ProductRow)
    (query : String) : List RagProduct :=
  if (strTrim query).length = 0 then []
  else
    (rows.filter (fun p => cfg.similarityThreshold ≤ p.similarity)).map rowToProduct

/-- Shallow embedding of `RagService.searchFaqs`. -/
def ragSearchFaqs (cfg : RagConfigM) (rows : List FaqRow)
    (query : String) : List RagFaq :=
  if (strTrim query).length = 0 then []
  else
    (rows.filter (fun f => cfg.similarityThreshold ≤ f.similarity)).map rowToFaq

/-- Shallow embedding of `RagService.search`: both store lookups are issued
(concurrently in the source), then each result set is floor-filtered and
mapped exactly as in the single-corpus methods. -/
def ragSearch (cfg : RagConfigM) (productRows : List ProductRow)
    (faqRows : List FaqRow) (query : String) :
    List RagProduct × List RagFaq :=
  if (strTrim query).length = 0 then ([], [])
  else
    ((productRows.filter (fun p => cfg.similarityThreshold ≤ p.similarity)).map
        rowToProduct,
      (faqRows.filter (fun f => cfg.similarityThreshold ≤ f.similarity)).map
        rowToFaq)

end Rag

section Tenant

/-- Default tenant cache TTL (`TENANT_CACHE_TTL_MS = 5 * 60 * 1000`). -/
def TENANT_CACHE_TTL_MS : Nat := 5 * 60 * 1000

/-- Row of the `tenants` table as selected by `TenantService.getTenant`. -/
structure TenantRowM where
  id : String
  name : String
  shopify_store_url : Option String
  system_prompt : Option String
  widget_config : List (String × String)
  created_at : String
  updated_at : String
deriving DecidableEq

/-- Mapped tenant configuration (`TenantConfig`). -/
structure TenantConfigM where
  id : String
  name : String
  shopifyStoreUrl : Option String
  systemPrompt : Option String
  widgetConfig : List (String × String)
  createdAt : String
  updatedAt : String
deriving DecidableEq

/-- Outcome of the durable-store point lookup for a tenant id: a row, the
`PGRST116` row-not-found condition, or any other store error. -/
inductive StoreLookup
  | row (r : TenantRowM)
  | notFound
  | failure (msg : String)
deriving DecidableEq

/-- Tenant cache entry (`CacheEntry`). -/
structure TenantCacheEntry where
  tenant : Option TenantConfigM
  expiresAt : Nat
deriving DecidableEq

/-- In-memory tenant cache, keyed by tenant id. -/
abbrev TenantCache := String → Option TenantCacheEntry

/-- Mapping of a store row to a `TenantConfig`. -/
def rowToConfig (r : TenantRowM) : TenantConfigM :=
  ⟨r.id, r.name, r.shopify_store_url, r.system_prompt, r.widget_config,
    r.created_at, r.updated_at⟩

/-- Shallow embedding of `TenantService.getTenant`.  `store` is the durable
store's point lookup, `now` the current clock reading in milliseconds.
Returns the result (`Except` models the thrown store failure), the updated
cache, and the number of durable-store queries issued by this call. -/
def getTenant (store : String → StoreLookup) (ttl : Nat)
    (cache : TenantCache) (now : Nat) (id : String) :
    Except String (Option TenantConfigM) × TenantCache × Nat :=
  if (strTrim id).length = 0 then (.ok none, cache, 0)
  else
    let hit : Option (Option TenantConfigM) :=
      match cache id with
      | some e => if now < e.expiresAt then some e.tenant else none
      | none => none
    match hit with
    | some t => (.ok t, cache, 0)
    | none =>
      match store id with
      | .notFound =>
        (.ok none,
          fun x => if x = id then some ⟨none, now + ttl⟩ else cache x, 1)
      | .failure m => (.error ("Failed to fetch tenant: " ++ m), cache, 1)
      | .row r =>
        let t := rowToConfig r
        (.ok (some t),
          fun x => if x = id then some ⟨some t, now + ttl⟩ else cache x, 1)

end Tenant

section Tools

/-- JS number-or-missing value for the untrusted numeric tool inputs
(`input.quantity as number`, `input.limit as number`): the value may be
absent, `null`, `NaN`, or an actual number. -/
inductive JsNum
  | undef
  | null
  | nan
  | num (q : ℚ)
deriving DecidableEq

/-- Truthiness of a `JsNum`: only a non-zero number is truthy. -/
def JsNum.truthy : JsNum → Bool
  | .num q => decide (q ≠ 0)
  | _ => false

/-- JS `v || d` default for numeric inputs (`(input.quantity as number) || 1`,
`(input.limit as number) || 5`): falsy values fall back to the default. -/
def jsOrQ (v : JsNum) (d : ℚ) : ℚ :=
  match v with
  | .num q => if q = 0 then d else q
  | _ => d

/-- Truthiness check for an optional string input: absent and empty strings
are falsy. -/
def strTruthy : Option String → Option String
  | none => none
  | some s => if s = "" then none else some s

/-- Tool invocation input (`Record<string, unknown>`), restricted to the keys
the six tool handlers read. -/
structure ToolInput where
  query : Option String := none
  limit : JsNum := .undef
  variantId : Option String := none
  quantity : JsNum := .undef
  productHandle : Option String := none
  email : Option String := none
  note : Option String := none
deriving DecidableEq

/-- Agent execution context (`AgentContext`). -/
structure AgentContext where
  tenantId : String
  sessionId : String
  cartId : Option String := none
deriving DecidableEq

/-- Claude `tool_use` schema declaration (`ToolDefinition`); properties are
`(name, type, description)` triples. -/
structure ToolDefinition where
  name : String
  description : String
  properties : List (String × String × String)
  required : List String := []
deriving DecidableEq

/-- Static list of the six declared agent tools (`AGENT_TOOLS`). -/
def AGENT_TOOLS : List ToolDefinition :=
  [⟨"search_products",
      "Search for products in the store by keywords or description",
      [("query", "string", "Search query for finding products"),
        ("limit", "number", "Maximum number of results (default 5)")],
      ["query"]⟩,
    ⟨"get_product_details",
      "Get detailed information about a specific product by its handle/slug",
      [("productHandle", "string", "Product handle (URL slug)")],
      ["productHandle"]⟩,
    ⟨"add_to_cart",
      "Add a product variant to the shopping cart",
      [("variantId", "string", "Product variant ID to add"),
        ("quantity", "number", "Quantity to add (default 1)")],
      ["variantId"]⟩,
    ⟨"get_cart",
      "Get current shopping cart contents and checkout URL",
      [], []⟩,
    ⟨"search_faqs",
      "Search FAQ/help articles for customer questions about shipping, returns, policies",
      [("query", "string", "Question or topic to search")],
      ["query"]⟩,
    ⟨"create_order",
      "Create a draft order for the customer (requires customer email)",
      [("email", "string", "Customer email address"),
        ("note", "string", "Optional note for the order")],
      ["email"]⟩]

/-- Cart line: `(merchandiseId, quantity)` (`CartLine`). -/
structure CartLineM where
  merchandiseId : String
  quantity : ℚ
deriving DecidableEq

/-- Cart-shaped commerce-platform response (`CartResponse`). -/
structure CartResp where
  cartId : String
  checkoutUrl : String
  lines : List CartLineM
deriving DecidableEq

/-- Log entry for one commerce-platform storefront call. -/
inductive StorefrontCall
  | createCart (lines : List CartLineM)
  | addLines (cartId : String) (lines : List CartLineM)
  | fetchCart (cartId : String)
  | searchLive (query : String)
deriving DecidableEq

/-- Commerce-platform cart state: the carts it currently holds (id to lines),
a counter feeding fresh cart ids, and the log of storefront calls made. -/
structure ShopState where
  carts : List (String × List CartLineM)
  nextCartId : Nat := 0
  log : List StorefrontCall := []
deriving DecidableEq

/-- Association-list lookup on the platform's cart table. -/
def lookupCart (carts : List (String × List CartLineM)) (id : String) :
    Option (List CartLineM) :=
  match carts with
  | [] => none
  | (k, v) :: t => if k = id then some v else lookupCart t id

/-- Replace the lines of an existing cart id. -/
def setCart (carts : List (String × List CartLineM)) (id : String)
    (v : List CartLineM) : List (String × List CartLineM) :=
  carts.map (fun p => if p.1 = id then (id, v) else p)

/-- Fresh cart id minted by the platform. -/
def freshCartId (n : Nat) : String :=
  "cart-" ++ toString n

/-- Checkout URL the platform reports for a cart. -/
def checkoutUrlOf (id : String) : String :=
  "https://checkout.example/" ++ id

/-- Platform `cartCreate`: mints a fresh cart holding the given lines. -/
def sfCreateCart (s : ShopState) (lines : List CartLineM) :
    CartResp × ShopState :=
  let id := freshCartId s.nextCartId
  (⟨id, checkoutUrlOf id, lines⟩,
    ⟨(id, lines) :: s.carts, s.nextCartId + 1, s.log ++ [.createCart lines]⟩)

/-- Platform `cartLinesAdd`: appends lines to an existing cart; an unknown
cart id is an upstream error. -/
def sfAddToCart (s : ShopState) (cartId : String) (lines : List CartLineM) :
    Except String (CartResp × ShopState) :=
  match lookupCart s.carts cartId with
  | none => .error ("Cart not found: " ++ cartId)
  | some old =>
    let newLines := old ++ lines
    .ok (⟨cartId, checkoutUrlOf cartId, newLines⟩,
      ⟨setCart s.carts cartId newLines, s.nextCartId,
        s.log ++ [.addLines cartId lines]⟩)

/-- Platform cart query: an unknown or expired cart id is an upstream error
(`Cart not found`), as thrown by `ShopifyStorefrontClient.getCart`. -/
def sfGetCart (s : ShopState) (cartId : String) :
    Except String (CartResp × ShopState) :=
  match lookupCart s.carts cartId with
  | none => .error ("Cart not found: " ++ cartId)
  | some lines =>
    .ok (⟨cartId, checkoutUrlOf cartId, lines⟩,
      ⟨s.carts, s.nextCartId, s.log ++ [.fetchCart cartId]⟩)

/-- Storefront product variant (`ShopifyProduct.variants[i]`). -/
structure ShopifyVariantM where
  id : String
  title : String
  price : ℚ
  available : Bool
deriving DecidableEq

/-- Storefront product (`ShopifyProduct`); the price range carries the min
and max variant prices. -/
structure ShopifyProductM where
  title : String
  handle : String
  description : Option String
  minPrice : ℚ
  maxPrice : ℚ
  images : List String
  variants : List ShopifyVariantM
deriving DecidableEq

/-- Product payload built by `formatProduct`.  Monetary values are kept
numeric (the source renders them as dollar strings). -/
structure FormattedProduct where
  title : String
  handle : String
  description : String
  price : ℚ
  priceRangeMax : Option ℚ
  image : Option String
  variants : List (String × String × ℚ)
  inStock : Bool
deriving DecidableEq

/-- Shallow embedding of `formatProduct`: keeps the available variants,
truncates the description to 200 characters with a fallback, surfaces a
price range only when min and max differ, and reports stock from variant
availability. -/
def formatProduct (p : ShopifyProductM) : FormattedProduct :=
  let availableVariants := p.variants.filter (fun v => v.available)
  let desc := (p.description.getD "")
  ⟨p.title, p.handle,
    (if desc = "" then "No description" else String.mk (desc.data.take 200)),
    p.minPrice,
    (if p.minPrice ≠ p.maxPrice then some p.maxPrice else none),
    p.images.head?,
    availableVariants.map (fun v => (v.id, v.title, v.price)),
    decide (availableVariants ≠ [])⟩

/-- Product payload of the `search_products` database branch; a `none` price
models the source's "Price not available" string. -/
structure ToolProduct where
  id : String
  title : String
  description : String
  price : Option (ℚ × String)
  image : Option String
  category : Option String
deriving DecidableEq

/-- Mapping of a retrieval hit into the `search_products` payload. -/
def ragToToolProduct (p : RagProduct) : ToolProduct :=
  ⟨p.id, p.title,
    (match p.description with
      | some d => if d = "" then "No description" else String.mk (d.data.take 200)
      | none => "No description"),
    (match p.price with
      | some q => some (q, p.currency)
      | none => none),
    p.imageUrl, p.category⟩

/-- Draft order returned by the privileged commerce API (`DraftOrder`). -/
structure DraftOrderM where
  id : String
  invoiceUrl : String
  totalPrice : String
  status : String
deriving DecidableEq

/-- Structured tool payload (`ToolResult.data`); one constructor per object
shape the six handlers build. -/
inductive ToolData
  | cartData (cartId : String) (checkoutUrl : String) (items : List CartLineM)
      (message : Option String)
  | emptyCartData (message : String)
  | dbProducts (products : List ToolProduct)
  | liveProducts (products : List FormattedProduct)
  | noProducts (message : String)
  | productDetail (p : FormattedProduct)
  | faqList (faqs : List (String × String × Option String))
  | noFaqs (message : String)
  | checkoutLink (checkoutUrl : String) (message : String)
  | orderData (d : DraftOrderM) (message : String)
deriving DecidableEq

/-- Dynamic access to a payload's `cartId` property (only the cart summary
shape carries one). -/
def ToolData.cartIdField : ToolData → Option String
  | .cartData c _ _ _ => some c
  | _ => none

/-- Dynamic access to a payload's `checkoutUrl` property. -/
def ToolData.checkoutUrlField : ToolData → Option String
  | .cartData _ u _ _ => some u
  | .checkoutLink u _ => some u
  | _ => none

/-- Tool execution result (`ToolResult`). -/
structure ToolResultM where
  success : Bool
  data : Option ToolData := none
  error : Option String := none
deriving DecidableEq

/-- Cart id reported in a tool result's payload, when any. -/
def ToolResultM.dataCartId (r : ToolResultM) : Option String :=
  r.data.bind ToolData.cartIdField

/-- Failure result with a message. -/
def failRes (msg : String) : ToolResultM :=
  ⟨false, none, some msg⟩

/-- Success result with a payload. -/
def okRes (d : ToolData) : ToolResultM :=
  ⟨true, some d, none⟩

/-- Tenant record as the tool executor sees it: the resolved configuration
plus the commerce credentials the Shopify factory checks.  Modelled from the
spec: `shopify-factory.ts` is not under `src/`; per the spec a storefront
client exists iff the store URL and public token are configured, an admin
client iff the store URL and privileged token are configured. -/
structure TenantM where
  id : String
  name : String
  shopifyStoreUrl : Option String := none
  systemPrompt : Option String := none
  storefrontToken : Option String := none
  adminToken : Option String := none
deriving DecidableEq

/-- Whether `ShopifyFactory.createStorefrontClient` returns a client. -/
def storefrontConfigured (t : TenantM) : Bool :=
  t.shopifyStoreUrl.isSome && t.storefrontToken.isSome

/-- Whether `ShopifyFactory.createAdminClient` returns a client. -/
def adminConfigured (t : TenantM) : Bool :=
  t.shopifyStoreUrl.isSome && t.adminToken.isSome

/-- Scripted backend collaborators of the tool executor, together with the
mutable commerce-platform state.  `ragProducts`/`ragFaqs` give the retrieval
hits the Semantic Retriever returns for a tenant and query, `liveProducts`
the storefront keyword search results, `productByHandle` the storefront
product lookup, and `createDraft` the privileged draft-order operation. -/
structure AgentWorld where
  tenants : String → Option TenantM
  ragProducts : String → String → ℚ → List RagProduct
  ragFaqs : String → String → List RagFaq
  liveProducts : String → ℚ → List ShopifyProductM
  productByHandle : String → Option ShopifyProductM
  createDraft : List (String × ℚ) → String → Option String →
    Except String DraftOrderM
  shop : ShopState

/-- In-memory session-to-cart map of the executor (`cartStore`), keyed by
the session key. -/
structure ExecState where
  cartStore : String → Option String

/-- Session key `tenantId:sessionId`. -/
def sessionKey (ctx : AgentContext) : String :=
  ctx.tenantId ++ ":" ++ ctx.sessionId

/-- Shallow embedding of `ToolExecutor.getCartId`: the stored cart id for
the session when truthy, the context's cart id otherwise. -/
def getCartIdOf (st : ExecState) (ctx : AgentContext) : Option String :=
  match st.cartStore (sessionKey ctx) with
  | some c => if c = "" then ctx.cartId else some c
  | none => ctx.cartId

/-- Shallow embedding of `ToolExecutor.setCartId`. -/
def setCartIdOf (st : ExecState) (ctx : AgentContext) (cartId : String) :
    ExecState :=
  ⟨fun k => if k = sessionKey ctx then some cartId else st.cartStore k⟩

/-- Blank-query validation shared by `search_products` and `search_faqs`:
gives the non-blank query, or nothing when the input is missing, empty or
whitespace. -/
def nonBlankQuery (q : Option String) : Option String :=
  match q with
  | none => none
  | some s => if (strTrim s).length = 0 then none else some s

/-- Shallow embedding of `ToolExecutor.searchProducts`: requires a non-blank
query, serves indexed retrieval hits when any exist, otherwise falls back to
the live storefront search when the tenant is configured for it, and reports
an empty product list when it is not. -/
def searchProductsTool (w : AgentWorld) (input : ToolInput)
    (ctx : AgentContext) : Except String (ToolResultM × AgentWorld) :=
  let limit := jsOrQ input.limit 5
  match nonBlankQuery input.query with
  | none => .ok (failRes "Search query is required", w)
  | some q =>
    let ragResults := w.ragProducts ctx.tenantId q limit
    if ragResults ≠ [] then
      .ok (okRes (.dbProducts (ragResults.map ragToToolProduct)), w)
    else
      match w.tenants ctx.tenantId with
      | none => .ok (failRes "Tenant not found", w)
      | some t =>
        if storefrontConfigured t then
          let ps := w.liveProducts q limit
          .ok (okRes (.liveProducts (ps.map formatProduct)),
            { w with shop := { w.shop with log := w.shop.log ++ [.searchLive q] } })
        else
          .ok (okRes (.noProducts "No products found"), w)

/-- Shallow embedding of `ToolExecutor.getProductDetails`. -/
def getProductDetailsTool (w : AgentWorld) (input : ToolInput)
    (ctx : AgentContext) : Except String (ToolResultM × AgentWorld) :=
  match strTruthy input.productHandle with
  | none => .ok (failRes "Product handle is required", w)
  | some handle =>
    match w.tenants ctx.tenantId with
    | none => .ok (failRes "Tenant not found", w)
    | some t =>
      if storefrontConfigured t then
        match w.productByHandle handle with
        | none => .ok (failRes ("Product not found: " ++ handle), w)
        | some p => .ok (okRes (.productDetail (formatProduct p)), w)
      else
        .ok (failRes "Shopify not configured for this store", w)

/-- Shallow embedding of `ToolExecutor.addToCart`: requires a variant id,
defaults a falsy quantity to 1, appends to the session's existing cart when
one is known, and otherwise creates a new cart and remembers its id.  The
source interpolates the quantity into the confirmation message; the model
keeps a fixed message text, the quantity being carried by the cart lines. -/
def addToCartTool (w : AgentWorld) (st : ExecState) (input : ToolInput)
    (ctx : AgentContext) :
    Except String (ToolResultM × ExecState × AgentWorld) :=
  let quantity := jsOrQ input.quantity 1
  match strTruthy input.variantId with
  | none => .ok (failRes "Variant ID is required", st, w)
  | some vid =>
    match w.tenants ctx.tenantId with
    | none => .ok (failRes "Tenant not found", st, w)
    | some t =>
      if storefrontConfigured t then
        match getCartIdOf st ctx with
        | some existingCartId =>
          match sfAddToCart w.shop existingCartId [⟨vid, quantity⟩] with
          | .error m => .error m
          | .ok (cart, shop1) =>
            .ok (okRes (.cartData cart.cartId cart.checkoutUrl cart.lines
                (some "Added item(s) to cart")), st, { w with shop := shop1 })
        | none =>
          let (cart, shop1) := sfCreateCart w.shop [⟨vid, quantity⟩]
          let st1 := setCartIdOf st ctx cart.cartId
          .ok (okRes (.cartData cart.cartId cart.checkoutUrl cart.lines
              (some "Added item(s) to cart")), st1, { w with shop := shop1 })
      else
        .ok (failRes "Shopify not configured for this store", st, w)

/-- Shallow embedding of `ToolExecutor.getCart`: an unknown session cart is
an empty-cart success, and an upstream fetch failure is reported as an
empty/expired cart, not an error. -/
def getCartTool (w : AgentWorld) (st : ExecState) (ctx : AgentContext) :
    Except String (ToolResultM × ExecState × AgentWorld) :=
  match getCartIdOf st ctx with
  | none => .ok (okRes (.emptyCartData "Cart is empty"), st, w)
  | some cartId =>
    match w.tenants ctx.tenantId with
    | none => .ok (failRes "Tenant not found", st, w)
    | some t =>
      if storefrontConfigured t then
        match sfGetCart w.shop cartId with
        | .ok (cart, shop1) =>
          .ok (okRes (.cartData cart.cartId cart.checkoutUrl cart.lines none),
            st, { w with shop := shop1 })
        | .error _ =>
          .ok (okRes (.emptyCartData "Cart is empty or expired"), st, w)
      else
        .ok (failRes "Shopify not configured", st, w)

/-- Shallow embedding of `ToolExecutor.searchFaqs`. -/
def searchFaqsTool (w : AgentWorld) (input : ToolInput) (ctx : AgentContext) :
    Except String (ToolResultM × AgentWorld) :=
  match nonBlankQuery input.query with
  | none => .ok (failRes "Search query is required", w)
  | some q =>
    let faqs := w.ragFaqs ctx.tenantId q
    if faqs = [] then
      .ok (okRes (.noFaqs "No relevant FAQs found"), w)
    else
      .ok (okRes (.faqList (faqs.map (fun f => (f.question, f.answer, f.category)))), w)

/-- Shallow embedding of `ToolExecutor.createOrder`: validates the email,
requires a known non-empty cart, and degrades to the cart's checkout link
when the privileged API is not configured. -/
def createOrderTool (w : AgentWorld) (st : ExecState) (input : ToolInput)
    (ctx : AgentContext) :
    Except String (ToolResultM × ExecState × AgentWorld) :=
  match strTruthy input.email with
  | none => .ok (failRes "Valid email address is required", st, w)
  | some email =>
    if strIncludes email "@" then
      match getCartIdOf st ctx with
      | none => .ok (failRes "Cart is empty. Add items before creating order.", st, w)
      | some cartId =>
        match w.tenants ctx.tenantId with
        | none => .ok (failRes "Tenant not found", st, w)
        | some t =>
          if storefrontConfigured t then
            match sfGetCart w.shop cartId with
            | .error m => .error m
            | .ok (cart, shop1) =>
              if cart.lines = [] then
                .ok (failRes "Cart is empty", st, { w with shop := shop1 })
              else if adminConfigured t then
                match w.createDraft
                    (cart.lines.map (fun l => (l.merchandiseId, l.quantity)))
                    email input.note with
                | .error m => .error m
                | .ok d =>
                  .ok (okRes (.orderData d
                      "Draft order created. Check your email for the invoice."),
                    st, { w with shop := shop1 })
              else
                .ok (okRes (.checkoutLink cart.checkoutUrl
                    "Please complete your order using the checkout link"),
                  st, { w with shop := shop1 })
          else
            .ok (failRes "Shopify not configured", st, w)
    else
      .ok (failRes "Valid email address is required", st, w)

/-- Body of the `ToolExecutor.execute` switch: dispatch by tool name, with
the unknown-name default; a thrown collaborator failure propagates as an
`Except.error` to the catch boundary. -/
def executeInner (name : String) (input : ToolInput) (ctx : AgentContext)
    (st : ExecState) (w : AgentWorld) :
    Except String (ToolResultM × ExecState × AgentWorld) :=
  if name = "search_products" then
    (searchProductsTool w input ctx).map (fun p => (p.1, st, p.2))
  else if name = "get_product_details" then
    (getProductDetailsTool w input ctx).map (fun p => (p.1, st, p.2))
  else if name = "add_to_cart" then
    addToCartTool w st input ctx
  else if name = "get_cart" then
    getCartTool w st ctx
  else if name = "search_faqs" then
    (searchFaqsTool w input ctx).map (fun p => (p.1, st, p.2))
  else if name = "create_order" then
    createOrderTool w st input ctx
  else
    .ok (failRes ("Unknown tool: " ++ name), st, w)

/-- Shallow embedding of `ToolExecutor.execute`: the hard error boundary.
Whatever the dispatched handler throws is converted into a failure
`ToolResult`; the function is total and never propagates an exception. -/
def execute (name : String) (input : ToolInput) (ctx : AgentContext)
    (st : ExecState) (w : AgentWorld) : ToolResultM × ExecState × AgentWorld :=
  match executeInner name input ctx st w with
  | .ok r => r
  | .error m => (failRes m, st, w)

end Tools

section Agent

/-- Iteration cap of the tool-calling loop (`MAX_TOOL_ITERATIONS`). -/
def MAX_TOOL_ITERATIONS : Nat := 5

/-- Content block of a model response (`ContentBlock`): plain text or a
requested tool invocation. -/
inductive ContentBlock
  | text (t : String)
  | toolUse (id : String) (name : String) (input : ToolInput)
deriving DecidableEq

/-- Structured model response the orchestrator consumes (`ClaudeResponse`). -/
structure ClaudeResp where
  content : List ContentBlock
  stopByToolUse : Bool
deriving DecidableEq

/-- LLM oracle: the response to the n-th chat-completion call of one
processing cycle (call 0 is the initial request; the accumulated message
list and system instructions that parameterize each real call are folded
into the script). -/
abbrev LlmOracle := Nat → ClaudeResp

/-- Shallow embedding of `ChatAgent.extractText`: concatenation of the text
blocks of a response. -/
def extractText (content : List ContentBlock) : String :=
  String.join (content.filterMap (fun b =>
    match b with
    | .text t => some t
    | _ => none))

/-- Shallow embedding of `ChatAgent.extractToolUse`: the requested tool
invocations, in order. -/
def extractToolUse (content : List ContentBlock) :
    List (String × String × ToolInput) :=
  content.filterMap (fun b =>
    match b with
    | .toolUse id name input => some (id, name, input)
    | _ => none)

/-- Capture of a cart id from a successful tool result into the response
side-channel (`if (result.success && result.data)` then `if (data.cartId)`);
an empty string is falsy and leaves the previous value. -/
def captureCartId (cur : Option String) (r : ToolResultM) : Option String :=
  if r.success then
    match r.data.bind ToolData.cartIdField with
    | some s => if s = "" then cur else some s
    | none => cur
  else cur

/-- Capture of a checkout URL from a successful tool result. -/
def captureCheckoutUrl (cur : Option String) (r : ToolResultM) : Option String :=
  if r.success then
    match r.data.bind ToolData.checkoutUrlField with
    | some s => if s = "" then cur else some s
    | none => cur
  else cur

/-- Accumulated loop state of one `processMessage` cycle: the executor and
platform state, the tool-call log, and the side-channel cart state. -/
structure LoopState where
  st : ExecState
  w : AgentWorld
  toolCalls : List (String × ToolResultM)
  cartId : Option String
  checkoutUrl : Option String

/-- Sequential execution of the tool invocations of one model turn, in the
order the model requested them, threading executor state and capturing
cart/checkout side channels from each result. -/
def runBlocks (ctx : AgentContext) :
    LoopState → List (String × String × ToolInput) → LoopState
  | ls, [] => ls
  | ls, b :: rest =>
    let (r, st1, w1) :=
      execute b.2.1 b.2.2 { ctx with cartId := ls.cartId } ls.st ls.w
    runBlocks ctx
      { st := st1, w := w1,
        toolCalls := ls.toolCalls ++ [(b.2.1, r)],
        cartId := captureCartId ls.cartId r,
        checkoutUrl := captureCheckoutUrl ls.checkoutUrl r }
      rest

/-- Agent response returned to the caller (`AgentResponse`); `toolCalls` is
absent when no tool ran. -/
structure AgentRespM where
  reply : String
  toolCalls : Option (List (String × ToolResultM))
  cartId : Option String
  checkoutUrl : Option String

/-- Number of executed tool calls reported by a response. -/
def AgentRespM.toolCallCount (r : AgentRespM) : Nat :=
  match r.toolCalls with
  | some l => l.length
  | none => 0

/-- Final response assembly from the last model response and the loop
state. -/
def finishResponse (resp : ClaudeResp) (ls : LoopState) :
    AgentRespM × ExecState × AgentWorld :=
  (⟨extractText resp.content,
      (if ls.toolCalls = [] then none else some ls.toolCalls),
      ls.cartId, ls.checkoutUrl⟩,
    ls.st, ls.w)

/-- Tool-calling loop of `ChatAgent.processMessage`.  `resp` is the model
response under inspection, `k` the index of the next chat-completion call,
`fuel` the remaining loop budget (`MAX_TOOL_ITERATIONS - iterations`), and
`iters` the round-trips completed so far.  The loop runs while the model
stopped for tool use and budget remains; each iteration executes the
requested tools in order and asks the model again. -/
def agentLoop (oracle : LlmOracle) (ctx : AgentContext) :
    ClaudeResp → Nat → Nat → Nat → LoopState →
    AgentRespM × ExecState × AgentWorld × Nat
  | resp, _, 0, iters, ls =>
    let (r, st, w) := finishResponse resp ls
    (r, st, w, iters)
  | resp, k, fuel + 1, iters, ls =>
    if resp.stopByToolUse then
      let ls1 := runBlocks ctx ls (extractToolUse resp.content)
      agentLoop oracle ctx (oracle k) (k + 1) fuel (iters + 1) ls1
    else
      let (r, st, w) := finishResponse resp ls
      (r, st, w, iters)

/-- Shallow embedding of `ChatAgent.processMessage`: issues the initial
chat-completion call, loops on tool use up to the iteration cap, and
returns the assembled response.  Returns the response, the final executor
and platform state, and the number of tool-calling round-trips performed.
System-prompt construction (tenant instructions plus retrieved context)
parameterizes only the request payloads, which the oracle already scripts. -/
def processMessage (oracle : LlmOracle) (st : ExecState) (w : AgentWorld)
    (ctx : AgentContext) : AgentRespM × ExecState × AgentWorld × Nat :=
  agentLoop oracle ctx (oracle 0) 1 MAX_TOOL_ITERATIONS 0
    ⟨st, w, [], ctx.cartId, none⟩

/-- Streamed event of `processMessageStream` (`StreamEvent`). -/
inductive StreamEvent
  | text (data : String)
  | tool (data : String × ToolResultM)
  | done (data : AgentRespM)
  | error (data : String)

/-- Size of the simulated streaming chunks of the final reply. -/
def STREAM_CHUNK_SIZE : Nat := 50

/-- Shallow embedding of `ChatAgent.processMessageStream`: runs the
non-streaming cycle on the same inputs, then emits one `tool` event per
executed call, the reply in chunks of 50 characters as `text` events, and a
terminal `done` event carrying the structured response. -/
def processMessageStream (oracle : LlmOracle) (st : ExecState)
    (w : AgentWorld) (ctx : AgentContext) : List StreamEvent :=
  let (r, _, _, _) := processMessage oracle st w ctx
  (match r.toolCalls with
    | some tcs => tcs.map (fun tc => StreamEvent.tool tc)
    | none => []) ++
  ((chunksOf STREAM_CHUNK_SIZE r.reply.data).map
    (fun cs => StreamEvent.text (String.mk cs))) ++
  [StreamEvent.done r]

/-- Payloads of the `text` events of a stream, in emission order. -/
def textPayloads (events : List StreamEvent) : List String :=
  events.filterMap (fun e =>
    match e with
    | .text s => some s
    | _ => none)

end Agent

section Fixtures

/-- Deterministic embedding used by concrete scenarios: the text's length. -/
def embedOf (s : String) : Vec :=
  [Int.ofNat s.data.length]

/-- Well-behaved provider: one embedding per input, tagged with its request
index and returned in request order. -/
def provHonest : EmbedProvider :=
  fun input => (withIdx 0 input).map (fun p => ⟨p.1, embedOf p.2⟩)

/-- Adversarial but contract-conforming provider: one correctly tagged
embedding per input, returned in reverse order within the response. -/
def provPerm : EmbedProvider :=
  fun input => ((withIdx 0 input).map (fun p => TaggedVec.mk p.1 (embedOf p.2))).reverse

/-- Upstream script: two 429 responses, then success. -/
def script429twice : Upstream :=
  fun n => if n < 2 then .http 429 (some 7) "rate limited" else .ok [⟨0, [5]⟩]

/-- Upstream script: a hard 503 failure on every attempt. -/
def script503 : Upstream :=
  fun _ => .http 503 none "service unavailable"

/-- Upstream script: 429 on every attempt. -/
def script429all : Upstream :=
  fun n => .http 429 none (if n = 0 then "a" else if n = 1 then "b" else "c")

/-- Upstream script whose error body mentions "fetch". -/
def script500fetch : Upstream :=
  fun _ => .http 500 none "fetch"

/-- Fully configured concrete tenant. -/
def tenantW : TenantM :=
  ⟨"t1", "Shop One", some "https://shop1.example", none, some "sf-token",
    some "admin-token"⟩

/-- Concrete tenant with no commerce credentials configured. -/
def tenantBare : TenantM :=
  ⟨"t2", "Shop Two", none, none, none, none⟩

/-- Concrete retrieval hit used by retrieval scenarios. -/
def ragHitW : RagProduct :=
  ⟨"p1", "Blue Shoes", some "Comfortable blue shoes", some 29, "USD", none,
    some "shoes", 1⟩

/-- Concrete collaborator world: tenant `t1` fully configured, tenant `t2`
without commerce credentials, empty retrieval corpora, an empty cart table. -/
def worldW : AgentWorld where
  tenants := fun id =>
    if id = "t1" then some tenantW else if id = "t2" then some tenantBare else none
  ragProducts := fun _ _ _ => []
  ragFaqs := fun _ _ => []
  liveProducts := fun _ _ => []
  productByHandle := fun _ => none
  createDraft := fun _ _ _ => .error "draft API unavailable"
  shop := ⟨[], 0, []⟩

/-- Concrete world whose retrieval corpus returns one catalog hit. -/
def worldRag : AgentWorld :=
  { worldW with ragProducts := fun _ _ _ => [ragHitW] }

/-- Concrete agent context for session `s1` of tenant `t1`. -/
def ctxW : AgentContext :=
  ⟨"t1", "s1", none⟩

/-- Executor state with no session cart. -/
def stEmpty : ExecState :=
  ⟨fun _ => none⟩

/-- Executor state remembering cart `c1` for every session. -/
def stWithC1 : ExecState :=
  ⟨fun _ => some "c1"⟩

/-- Constant LLM script that requests one `get_cart` invocation on every
round. -/
def oracleToolUse : LlmOracle :=
  fun _ => ⟨[ContentBlock.toolUse "tu1" "get_cart" {}], true⟩

/-- Concrete tenant store holding no rows. -/
def storeEmptyW : String → StoreLookup :=
  fun _ => .notFound

/-- Concrete empty tenant cache. -/
def cacheEmptyW : TenantCache :=
  fun _ => none

end Fixtures

section HelperLemmas

theorem chunksOfAux_fuel {α : Type} (k : Nat) :
    ∀ (fuel1 : Nat) (fuel2 : Nat) (l : List α),
      l.length ≤ fuel1 → l.length ≤ fuel2 →
      chunksOfAux k fuel1 l = chunksOfAux k fuel2 l := by
  intro fuel1
  induction fuel1 with
  | zero =>
    intro fuel2 l h1 h2
    have : l = [] := List.eq_nil_of_length_eq_zero (Nat.le_zero.mp h1)
    subst this
    cases fuel2 <;> rfl
  | succ f ih =>
    intro fuel2 l h1 h2
    cases l with
    | nil => cases fuel2 <;> rfl
    | cons a t =>
      cases fuel2 with
      | zero => simp at h2
      | succ g =>
        by_cases hk : k = 0
        · simp [chunksOfAux, hk]
        · rw [chunksOfAux, chunksOfAux, if_neg hk, if_neg hk]
          have hdrop : ((a :: t).drop k).length ≤ f := by
            simp only [List.length_drop, List.length_cons]
            simp only [List.length_cons] at h1
            omega
          have hdrop2 : ((a :: t).drop k).length ≤ g := by
            simp only [List.length_drop, List.length_cons]
            simp only [List.length_cons] at h2
            omega
          rw [ih g ((a :: t).drop k) hdrop hdrop2]

theorem chunksOf_nil {α : Type} (k : Nat) : chunksOf k ([] : List α) = [] := rfl

theorem chunksOf_pos {α : Type} (k : Nat) (l : List α) (hk : k ≠ 0)
    (hl : l ≠ []) : chunksOf k l = l.take k :: chunksOf k (l.drop k) := by
  cases l with
  | nil => exact absurd rfl hl
  | cons a t =>
    rw [chunksOf]
    rw [show (a :: t).length = t.length + 1 from rfl]
    rw [chunksOfAux, if_neg hk]
    rw [chunksOf]
    congr 1
    apply chunksOfAux_fuel
    · simp only [List.length_drop, List.length_cons]
      omega
    · exact Nat.le_refl _

theorem chunksOf_zero {α : Type} (l : List α) : chunksOf 0 l = [] := by
  cases l with
  | nil => rfl
  | cons a t =>
    rw [chunksOf, show (a :: t).length = t.length + 1 from rfl, chunksOfAux,
      if_pos rfl]

theorem chunksOf_flatten {α : Type} (k : Nat) (hk : k ≠ 0) :
    ∀ (n : Nat) (l : List α), l.length ≤ n → (chunksOf k l).flatten = l := by
  intro n
  induction n with
  | zero =>
    intro l hl
    have : l = [] := List.eq_nil_of_length_eq_zero (Nat.le_zero.mp hl)
    subst this
    simp [chunksOf_nil]
  | succ n ih =>
    intro l hl
    by_cases h0 : l = []
    · subst h0; simp [chunksOf_nil]
    · rw [chunksOf_pos k l hk h0]
      have hlen : 0 < l.length := List.length_pos.mpr h0
      have hdrop : (l.drop k).length ≤ n := by
        simp only [List.length_drop]
        omega
      show l.take k ++ (chunksOf k (l.drop k)).flatten = l
      rw [ih (l.drop k) hdrop]
      exact List.take_append_drop k l

theorem chunksOf_mem_length {α : Type} (k : Nat) :
    ∀ (n : Nat) (l : List α), l.length ≤ n →
      ∀ c ∈ chunksOf k l, c.length ≤ k := by
  intro n
  induction n with
  | zero =>
    intro l hl c hc
    have : l = [] := List.eq_nil_of_length_eq_zero (Nat.le_zero.mp hl)
    subst this
    simp [chunksOf_nil] at hc
  | succ n ih =>
    intro l hl c hc
    by_cases h0 : l = []
    · subst h0; simp [chunksOf_nil] at hc
    · by_cases hk : k = 0
      · subst hk
        rw [chunksOf_zero] at hc
        simp at hc
      · rw [chunksOf_pos k l hk h0] at hc
        rcases List.mem_cons.mp hc with h | h
        · subst h
          simp only [List.length_take]
          omega
        · exact ih (l.drop k) (by simp only [List.length_drop]; omega) c h

theorem withIdx_map_snd {α β : Type} (g : α → β) :
    ∀ (n : Nat) (l : List α), (withIdx n l).map (fun p => g p.2) = l.map g := by
  intro n l
  induction l generalizing n with
  | nil => rfl
  | cons a t ih => simp [withIdx, ih]

theorem withIdx_pairwise {α : Type} :
    ∀ (n : Nat) (l : List α), (withIdx n l).Pairwise (fun a b => a.1 < b.1) := by
  intro n l
  induction l generalizing n with
  | nil => exact List.Pairwise.nil
  | cons a t ih =>
    simp only [withIdx]
    refine List.Pairwise.cons ?_ (ih (n + 1))
    intro p hp
    have : ∀ m (l2 : List α) (q : Nat × α), q ∈ withIdx m l2 → m ≤ q.1 := by
      intro m l2
      induction l2 generalizing m with
      | nil => intro q hq; simp [withIdx] at hq
      | cons b t2 ih2 =>
        intro q hq
        simp only [withIdx, List.mem_cons] at hq
        rcases hq with h | h
        · subst h; exact Nat.le_refl m
        · exact Nat.le_of_succ_le (ih2 (m + 1) q h)
    have := this (n + 1) t p hp
    omega

theorem insertByIdx_head (x : Vec × Nat) (l : List (Vec × Nat))
    (h : ∀ y ∈ l, x.2 ≤ y.2) : insertByIdx x l = x :: l := by
  cases l with
  | nil => rfl
  | cons y t =>
    simp only [insertByIdx]
    rw [if_pos (h y (List.mem_cons_self y t))]

theorem sortByIdx_sorted (l : List (Vec × Nat))
    (h : l.Pairwise (fun a b => a.2 ≤ b.2)) : sortByIdx l = l := by
  induction l with
  | nil => rfl
  | cons a t ih =>
    rw [List.pairwise_cons] at h
    have : sortByIdx (a :: t) = insertByIdx a (sortByIdx t) := rfl
    rw [this, ih h.2, insertByIdx_head a t h.1]

theorem isPrefixOf_append {n x t : List Char}
    (h : n.isPrefixOf x = true) : n.isPrefixOf (x ++ t) = true := by
  induction n generalizing x with
  | nil => simp [List.isPrefixOf]
  | cons c cs ih =>
    cases x with
    | nil => simp [List.isPrefixOf] at h
    | cons d ds =>
      simp only [List.isPrefixOf, Bool.and_eq_true] at h ⊢
      exact ⟨h.1, ih h.2⟩

theorem isPrefixOf_nil_source {n : List Char} (h : n.isEmpty = true) :
    ∀ x : List Char, n.isPrefixOf x = true := by
  intro x
  have : n = [] := by
    cases n with
    | nil => rfl
    | cons a t => simp [List.isEmpty] at h
  subst this
  simp [List.isPrefixOf]

theorem includesChars_append {hay n : List Char} (t : List Char)
    (h : includesChars hay n = true) : includesChars (hay ++ t) n = true := by
  induction hay with
  | nil =>
    rw [includesChars] at h
    cases t with
    | nil => rw [List.nil_append, includesChars]; exact h
    | cons c cs =>
      rw [List.nil_append, includesChars]
      simp only [Bool.or_eq_true]
      left
      exact isPrefixOf_nil_source h (c :: cs)
  | cons c cs ih =>
    rw [includesChars] at h
    simp only [Bool.or_eq_true] at h
    rw [List.cons_append, includesChars]
    simp only [Bool.or_eq_true]
    rcases h with h | h
    · left
      have := isPrefixOf_append (t := t) h
      rwa [List.cons_append] at this
    · right; exact ih h

theorem strIncludes_append_left {a : String} (needle : String) (b : String)
    (h : strIncludes a needle = true) : strIncludes (a ++ b) needle = true := by
  unfold strIncludes at h ⊢
  have : (a ++ b).data = a.data ++ b.data := rfl
  rw [this]
  exact includesChars_append b.data h

theorem string_ext {s t : String} (h : s.data = t.data) : s = t := by
  cases s
  cases t
  cases h
  rfl

theorem string_data_mk (cs : List Char) : (String.mk cs).data = cs := rfl

theorem string_mk_data (s : String) : String.mk s.data = s := rfl

theorem string_append_data (a b : String) : (a ++ b).data = a.data ++ b.data := rfl

theorem string_join_data : ∀ (L : List String),
    (String.join L).data = (L.map String.data).flatten := by
  have aux : ∀ (L : List String) (acc : String),
      (L.foldl (fun r s => r ++ s) acc).data
        = acc.data ++ (L.map String.data).flatten := by
    intro L
    induction L with
    | nil => intro acc; simp
    | cons s t ih =>
      intro acc
      simp only [List.foldl_cons, List.map_cons, List.flatten_cons]
      rw [ih (acc ++ s), string_append_data]
      simp [List.append_assoc]
  intro L
  have : String.join L = L.foldl (fun r s => r ++ s) "" := rfl
  rw [this, aux]
  rfl

theorem lookupCart_setCart (carts : List (String × List CartLineM))
    (id : String) (v : List CartLineM) (v0 : List CartLineM)
    (h : lookupCart carts id = some v0) :
    lookupCart (setCart carts id v) id = some v := by
  induction carts with
  | nil => simp [lookupCart] at h
  | cons p t ih =>
    obtain ⟨pk, pv⟩ := p
    by_cases hp : pk = id
    · subst hp
      have hset : setCart ((pk, pv) :: t) pk v = (pk, v) :: setCart t pk v := by
        simp [setCart]
      rw [hset]
      simp [lookupCart]
    · rw [lookupCart, if_neg hp] at h
      simp only [setCart, List.map_cons]
      rw [if_neg hp, lookupCart, if_neg hp]
      exact ih h

theorem freshCartId_ne_empty (n : Nat) : freshCartId n ≠ "" := by
  intro h
  have hd : "cart-".data ++ (toString n).data = ([] : List Char) :=
    congrArg String.data h
  have h2 : "cart-".data = ([] : List Char) := (List.append_eq_nil.mp hd).1
  have h3 : "cart-".data = ['c', 'a', 'r', 't', '-'] := rfl
  rw [h3] at h2
  exact List.cons_ne_nil _ _ h2

theorem runBlocks_toolCalls_length (ctx : AgentContext) :
    ∀ (blocks : List (String × String × ToolInput)) (ls : LoopState),
      (runBlocks ctx ls blocks).toolCalls.length
        = ls.toolCalls.length + blocks.length := by
  intro blocks
  induction blocks with
  | nil => intro ls; simp [runBlocks]
  | cons b rest ih =>
    intro ls
    rcases hE : execute b.2.1 b.2.2 { ctx with cartId := ls.cartId } ls.st ls.w
      with ⟨r, st1, w1⟩
    rw [runBlocks, hE]
    rw [ih]
    simp
    omega

theorem finishResponse_count (resp : ClaudeResp) (ls : LoopState) :
    (finishResponse resp ls).1.toolCallCount = ls.toolCalls.length := by
  by_cases h : ls.toolCalls = []
  · simp [finishResponse, AgentRespM.toolCallCount, h]
  · simp [finishResponse, AgentRespM.toolCallCount, h]

theorem agentLoop_toolUse_all (oracle : LlmOracle) (ctx : AgentContext)
    (hor : ∀ n, (oracle n).stopByToolUse = true ∧
      (extractToolUse (oracle n).content).length = 1) :
    ∀ (fuel : Nat) (resp : ClaudeResp) (k iters : Nat) (ls : LoopState),
      resp.stopByToolUse = true →
      (extractToolUse resp.content).length = 1 →
      (agentLoop oracle ctx resp k fuel iters ls).2.2.2 = iters + fuel ∧
      (agentLoop oracle ctx resp k fuel iters ls).1.toolCallCount
        = ls.toolCalls.length + fuel ∧
      (agentLoop oracle ctx resp k fuel iters ls).1.reply
        = extractText (if fuel = 0 then resp else oracle (k + fuel - 1)).content := by
  intro fuel
  induction fuel with
  | zero =>
    intro resp k iters ls h1 h2
    refine ⟨by simp [agentLoop], ?_, by simp [agentLoop, finishResponse, extractText]⟩
    show (finishResponse resp ls).1.toolCallCount = ls.toolCalls.length + 0
    rw [finishResponse_count]
    omega
  | succ fuel ih =>
    intro resp k iters ls h1 h2
    have hstep : agentLoop oracle ctx resp k (fuel + 1) iters ls
        = agentLoop oracle ctx (oracle k) (k + 1) fuel (iters + 1)
            (runBlocks ctx ls (extractToolUse resp.content)) := by
      rw [agentLoop, if_pos h1]
    rw [hstep]
    obtain ⟨ho1, ho2⟩ := hor k
    obtain ⟨ihA, ihB, ihC⟩ := ih (oracle k) (k + 1) (iters + 1)
      (runBlocks ctx ls (extractToolUse resp.content)) ho1 ho2
    refine ⟨by rw [ihA]; omega, ?_, ?_⟩
    · have hr := runBlocks_toolCalls_length ctx (extractToolUse resp.content) ls
      rw [h2] at hr
      rw [ihB, hr]
      omega
    · rw [ihC]
      by_cases hf : fuel = 0
      · subst hf
        simp
      · rw [if_neg hf, if_neg (Nat.succ_ne_zero fuel)]
        have harith : k + 1 + fuel - 1 = k + (fuel + 1) - 1 := by omega
        rw [harith]

theorem executeInner_add_to_cart (input : ToolInput) (ctx : AgentContext)
    (st : ExecState) (w : AgentWorld) :
    executeInner "add_to_cart" input ctx st w = addToCartTool w st input ctx := rfl

theorem executeInner_get_cart (input : ToolInput) (ctx : AgentContext)
    (st : ExecState) (w : AgentWorld) :
    executeInner "get_cart" input ctx st w = getCartTool w st ctx := rfl

theorem executeInner_search_products (input : ToolInput) (ctx : AgentContext)
    (st : ExecState) (w : AgentWorld) :
    executeInner "search_products" input ctx st w
      = (searchProductsTool w input ctx).map (fun p => (p.1, st, p.2)) := rfl

theorem withIdx_mem {α : Type} :
    ∀ (n : Nat) (l : List α) (p : Nat × α), p ∈ withIdx n l → p.2 ∈ l := by
  intro n l
  induction l generalizing n with
  | nil => intro p hp; simp [withIdx] at hp
  | cons a t ih =>
    intro p hp
    simp only [withIdx, List.mem_cons] at hp
    rcases hp with h | h
    · subst h; exact List.mem_cons_self a t
    · exact List.mem_cons_of_mem a (ih (n + 1) p h)

theorem withIdx_length {α : Type} :
    ∀ (n : Nat) (l : List α), (withIdx n l).length = l.length := by
  intro n l
  induction l generalizing n with
  | nil => rfl
  | cons a t ih => simp [withIdx, ih]

theorem zipWith_honest (f : String → Vec) :
    ∀ (chunk : List (String × Nat)) (n : Nat),
      List.zipWith (fun (item : TaggedVec) c => (item.vec, c.2))
        ((withIdx n (chunk.map (fun c => c.1))).map
          (fun p => TaggedVec.mk p.1 (f p.2)))
        chunk
      = chunk.map (fun c => (f c.1, c.2)) := by
  intro chunk
  induction chunk with
  | nil => intro n; rfl
  | cons c rest ih =>
    intro n
    simp only [List.map_cons, withIdx, List.zipWith_cons_cons]
    rw [ih (n + 1)]

theorem foldl_append_flatten {α β : Type} (g : α → List β) :
    ∀ (L : List α) (acc : List β),
      L.foldl (fun a c => a ++ g c) acc = acc ++ (L.map g).flatten := by
  intro L
  induction L with
  | nil => intro acc; simp
  | cons c rest ih =>
    intro acc
    simp only [List.foldl_cons, List.map_cons, List.flatten_cons]
    rw [ih (acc ++ g c)]
    simp [List.append_assoc]

theorem map_flatten_swap {α β : Type} (h : α → β) :
    ∀ (L : List (List α)), (L.map (fun c => c.map h)).flatten = L.flatten.map h := by
  intro L
  induction L with
  | nil => rfl
  | cons c rest ih =>
    simp only [List.map_cons, List.flatten_cons, List.map_append]
    rw [ih]

theorem errMsg_429_includes (d : String) :
    strIncludes (errMsg 429 d) "429" = true := by
  have h1 : strIncludes ("Voyage AI Embeddings API error "
      ++ toString (429 : Nat) ++ ": ") "429" = true := by decide
  exact strIncludes_append_left "429" d h1

theorem getCart_known (w : AgentWorld) (st : ExecState) (ctx : AgentContext)
    (c : String) (t : TenantM) (lines : List CartLineM)
    (hc : getCartIdOf st ctx = some c)
    (ht : w.tenants ctx.tenantId = some t)
    (hcfg : storefrontConfigured t = true)
    (hl : lookupCart w.shop.carts c = some lines) :
    execute "get_cart" {} ctx st w
      = (okRes (.cartData c (checkoutUrlOf c) lines none), st,
        { w with shop :=
          ⟨w.shop.carts, w.shop.nextCartId, w.shop.log ++ [.fetchCart c]⟩ }) := by
  rw [execute, executeInner_get_cart, getCartTool]
  simp only [hc, ht, hcfg, if_true, sfGetCart, hl]

end HelperLemmas

section ClaimTheorems

/-- C1: if the model requests a tool call on every round (one invocation per
turn), `ChatAgent.processMessage` terminates after exactly
`MAX_TOOL_ITERATIONS = 5` tool-calling round-trips and returns an
`AgentResponse` (the embedded function is total, so no exception is
possible); the returned `toolCalls` list is present with length equal to the
cap, and the reply is the text accompanying the last model response. -/
theorem C1_iteration_cap (oracle : LlmOracle) (st : ExecState)
    (w : AgentWorld) (ctx : AgentContext)
    (hor : ∀ n, (oracle n).stopByToolUse = true ∧
      (extractToolUse (oracle n).content).length = 1) :
    (processMessage oracle st w ctx).2.2.2 = MAX_TOOL_ITERATIONS ∧
    (processMessage oracle st w ctx).1.toolCalls ≠ none ∧
    (processMessage oracle st w ctx).1.toolCallCount = MAX_TOOL_ITERATIONS ∧
    (processMessage oracle st w ctx).1.reply
      = extractText (oracle MAX_TOOL_ITERATIONS).content := by
  obtain ⟨ho1, ho2⟩ := hor 0
  obtain ⟨hA, hB, hC⟩ := agentLoop_toolUse_all oracle ctx hor
    MAX_TOOL_ITERATIONS (oracle 0) 1 0 ⟨st, w, [], ctx.cartId, none⟩ ho1 ho2
  refine ⟨hA, ?_, ?_, ?_⟩
  · intro hnone
    have h0 : (processMessage oracle st w ctx).1.toolCallCount = 0 := by
      unfold AgentRespM.toolCallCount
      rw [hnone]
    rw [processMessage] at h0
    rw [hB] at h0
    simp [MAX_TOOL_ITERATIONS] at h0
  · rw [processMessage, hB]
    rfl
  · rw [processMessage, hC]
    rfl

/-- Witness for C1 at a concrete script: the model always requests one
`get_cart` call and never produces text, so the loop performs exactly five
round-trips, logs five tool calls, and returns the (empty) text of the sixth
model response. -/
theorem C1_iteration_cap_witness :
    (processMessage oracleToolUse stEmpty worldW ctxW).2.2.2 = 5 ∧
    (processMessage oracleToolUse stEmpty worldW ctxW).1.toolCallCount = 5 := by
  obtain ⟨hA, _, hC, _⟩ := C1_iteration_cap oracleToolUse stEmpty worldW ctxW
    (fun _ => ⟨rfl, rfl⟩)
  exact ⟨hA, hC⟩

/-- C5: for identical inputs and scripted collaborators, concatenating the
payloads of the `text` events of `processMessageStream` in emission order
yields exactly the `reply` returned by `processMessage`, and the stream's
terminal event is a `done` event carrying that same structured response. -/
theorem C5_stream_sync_equivalence (oracle : LlmOracle) (st : ExecState)
    (w : AgentWorld) (ctx : AgentContext) :
    String.join (textPayloads (processMessageStream oracle st w ctx))
      = (processMessage oracle st w ctx).1.reply ∧
    (processMessageStream oracle st w ctx).getLast?
      = some (StreamEvent.done (processMessage oracle st w ctx).1) := by
  rcases hP : processMessage oracle st w ctx with ⟨r, st1, w1, iters⟩
  have hstream : processMessageStream oracle st w ctx
      = (match r.toolCalls with
          | some tcs => tcs.map (fun tc => StreamEvent.tool tc)
          | none => []) ++
        ((chunksOf STREAM_CHUNK_SIZE r.reply.data).map
          (fun cs => StreamEvent.text (String.mk cs))) ++
        [StreamEvent.done r] := by
    rw [processMessageStream, hP]
  constructor
  · rw [hstream]
    show String.join (textPayloads _) = r.reply
    unfold textPayloads
    rw [List.filterMap_append, List.filterMap_append]
    have htools : ∀ (tcs : List (String × ToolResultM)),
        (tcs.map (fun tc => StreamEvent.tool tc)).filterMap
          (fun e => match e with | StreamEvent.text s => some s | _ => none)
          = [] := by
      intro tcs
      rw [List.filterMap_map]
      simp
    have hfirst : (match r.toolCalls with
        | some tcs => tcs.map (fun tc => StreamEvent.tool tc)
        | none => []).filterMap
          (fun e => match e with | StreamEvent.text s => some s | _ => none)
        = [] := by
      cases r.toolCalls with
      | none => rfl
      | some tcs => exact htools tcs
    rw [hfirst]
    have hdone : ([StreamEvent.done r]).filterMap
        (fun e => match e with | StreamEvent.text s => some s | _ => none)
        = [] := rfl
    rw [hdone]
    have htext : ∀ (L : List (List Char)),
        (L.map (fun cs => StreamEvent.text (String.mk cs))).filterMap
          (fun e => match e with | StreamEvent.text s => some s | _ => none)
        = L.map String.mk := by
      intro L
      induction L with
      | nil => rfl
      | cons c t ih => simp [List.filterMap_cons, ih]
    rw [htext]
    simp only [List.nil_append, List.append_nil]
    have hjoin := string_join_data
      ((chunksOf STREAM_CHUNK_SIZE r.reply.data).map String.mk)
    have hdata : (((chunksOf STREAM_CHUNK_SIZE r.reply.data).map String.mk).map
        String.data) = chunksOf STREAM_CHUNK_SIZE r.reply.data := by
      rw [List.map_map]
      have : (String.data ∘ String.mk) = (id : List Char → List Char) := by
        funext cs
        rfl
      rw [this, List.map_id]
    rw [hdata] at hjoin
    rw [chunksOf_flatten STREAM_CHUNK_SIZE (by decide) r.reply.data.length
      r.reply.data (Nat.le_refl _)] at hjoin
    exact string_ext hjoin
  · rw [hstream]
    show (_ ++ _ ++ [StreamEvent.done r]).getLast? = some (StreamEvent.done r)
    exact List.getLast?_concat _

/-- C2: dispatching any name outside the six registered tools returns the
failure result `Unknown tool: <name>` with untouched state and never throws;
moreover any exception a tool handler raises is caught at the `execute`
boundary and converted into a failure `ToolResult` carrying the error
message, so `execute` (a total function) never propagates a failure. -/
theorem C2_unknown_tool_dispatch :
    (∀ (name : String) (input : ToolInput) (ctx : AgentContext)
        (st : ExecState) (w : AgentWorld),
      name ∉ AGENT_TOOLS.map (fun d => d.name) →
      execute name input ctx st w
        = (failRes ("Unknown tool: " ++ name), st, w)) ∧
    (∀ (name : String) (input : ToolInput) (ctx : AgentContext)
        (st : ExecState) (w : AgentWorld) (m : String),
      executeInner name input ctx st w = .error m →
      execute name input ctx st w = (failRes m, st, w)) := by
  constructor
  · intro name input ctx st w h
    simp only [AGENT_TOOLS, List.map_cons, List.map_nil, List.mem_cons,
      List.mem_singleton] at h
    push_neg at h
    obtain ⟨h1, h2, h3, h4, h5, h6, _⟩ := h
    rw [execute, executeInner]
    rw [if_neg h1, if_neg h2, if_neg h3, if_neg h4, if_neg h5, if_neg h6]
  · intro name input ctx st w m h
    rw [execute, h]

/-- Witness for C2: the unregistered name `frobnicate` yields the unknown-tool
failure, and a `create_order` whose session cart no longer exists upstream
(the collaborator throws `Cart not found: c1`) is converted into a failure
result rather than an exception. -/
theorem C2_unknown_tool_dispatch_witness :
    ("frobnicate" ∉ AGENT_TOOLS.map (fun d => d.name)) ∧
    execute "frobnicate" {} ctxW stEmpty worldW
      = (failRes "Unknown tool: frobnicate", stEmpty, worldW) ∧
    execute "create_order" { email := some "a@b.example" } ctxW stWithC1 worldW
      = (failRes "Cart not found: c1", stWithC1, worldW) := by
  refine ⟨by decide, ?_, ?_⟩
  · exact C2_unknown_tool_dispatch.1 "frobnicate" {} ctxW stEmpty worldW (by decide)
  · exact C2_unknown_tool_dispatch.2 "create_order"
      { email := some "a@b.example" } ctxW stWithC1 worldW "Cart not found: c1" rfl

/-- C7: every retrieval hit returned by `RagService.searchProducts`,
`RagService.searchFaqs` and `RagService.search` has similarity at least the
configured floor (`DEFAULT_SIMILARITY_THRESHOLD = 0.25` by default); rows
below the floor never appear in the output of any of the three methods. -/
theorem C7_similarity_floor (cfg : RagConfigM) (productRows : List ProductRow)
    (faqRows : List FaqRow) (query : String) :
    DEFAULT_SIMILARITY_THRESHOLD = 1 / 4 ∧
    (∀ hit ∈ ragSearchProducts cfg productRows query,
      cfg.similarityThreshold ≤ hit.similarity) ∧
    (∀ hit ∈ ragSearchFaqs cfg faqRows query,
      cfg.similarityThreshold ≤ hit.similarity) ∧
    (∀ hit ∈ (ragSearch cfg productRows faqRows query).1,
      cfg.similarityThreshold ≤ hit.similarity) ∧
    (∀ hit ∈ (ragSearch cfg productRows faqRows query).2,
      cfg.similarityThreshold ≤ hit.similarity) := by
  have hprod : ∀ hit ∈ (productRows.filter
      (fun p => cfg.similarityThreshold ≤ p.similarity)).map rowToProduct,
      cfg.similarityThreshold ≤ hit.similarity := by
    intro hit hmem
    obtain ⟨row, hrow, hval⟩ := List.mem_map.mp hmem
    obtain ⟨_, hle⟩ := List.mem_filter.mp hrow
    subst hval
    exact of_decide_eq_true hle
  have hfaq : ∀ hit ∈ (faqRows.filter
      (fun f => cfg.similarityThreshold ≤ f.similarity)).map rowToFaq,
      cfg.similarityThreshold ≤ hit.similarity := by
    intro hit hmem
    obtain ⟨row, hrow, hval⟩ := List.mem_map.mp hmem
    obtain ⟨_, hle⟩ := List.mem_filter.mp hrow
    subst hval
    exact of_decide_eq_true hle
  refine ⟨rfl, ?_, ?_, ?_, ?_⟩
  · intro hit hmem
    rw [ragSearchProducts] at hmem
    by_cases hq : (strTrim query).length = 0
    · rw [if_pos hq] at hmem
      simp at hmem
    · rw [if_neg hq] at hmem
      exact hprod hit hmem
  · intro hit hmem
    rw [ragSearchFaqs] at hmem
    by_cases hq : (strTrim query).length = 0
    · rw [if_pos hq] at hmem
      simp at hmem
    · rw [if_neg hq] at hmem
      exact hfaq hit hmem
  · intro hit hmem
    rw [ragSearch] at hmem
    by_cases hq : (strTrim query).length = 0
    · rw [if_pos hq] at hmem
      simp at hmem
    · rw [if_neg hq] at hmem
      exact hprod hit hmem
  · intro hit hmem
    rw [ragSearch] at hmem
    by_cases hq : (strTrim query).length = 0
    · rw [if_pos hq] at hmem
      simp at hmem
    · rw [if_neg hq] at hmem
      exact hfaq hit hmem

/-- Witness for C7 at concrete rows: with a floor of zero, a store row of
similarity 1 survives the filter in each of the three methods and indeed
satisfies the floor bound. -/
theorem C7_similarity_floor_witness :
    (rowToProduct ⟨"p1", "Blue Shoes", none, some 29, "USD", none, none, 1⟩
        ∈ ragSearchProducts ⟨5, 3, 0⟩
          [⟨"p1", "Blue Shoes", none, some 29, "USD", none, none, 1⟩] "shoes") ∧
    (0 : ℚ) ≤ (rowToProduct
      ⟨"p1", "Blue Shoes", none, some 29, "USD", none, none, 1⟩).similarity := by
  constructor
  · decide
  · exact (C7_similarity_floor ⟨5, 3, 0⟩
      [⟨"p1", "Blue Shoes", none, some 29, "USD", none, none, 1⟩] [] "shoes").2.1
      _ (by decide)

/-- C9: for a tenant id the durable store reports as absent, two consecutive
`TenantService.getTenant` calls within the cache TTL issue at most one store
query in total and both return `null`; for a non-blank id the first call
issues exactly one query (caching the negative result) and the second call
is served from the cache with zero queries. -/
theorem C9_negative_caching (store : String → StoreLookup) (ttl : Nat)
    (cache : TenantCache) (now t2 : Nat) (id : String)
    (habs : store id = .notFound) (hcache : cache id = none)
    (h2 : t2 < now + ttl) :
    (getTenant store ttl cache now id).1 = .ok none ∧
    (getTenant store ttl
        (getTenant store ttl cache now id).2.1 t2 id).1 = .ok none ∧
    (getTenant store ttl cache now id).2.2 +
      (getTenant store ttl
        (getTenant store ttl cache now id).2.1 t2 id).2.2 ≤ 1 ∧
    ((strTrim id).length ≠ 0 →
      (getTenant store ttl cache now id).2.2 = 1 ∧
      (getTenant store ttl
        (getTenant store ttl cache now id).2.1 t2 id).2.2 = 0) := by
  by_cases hblank : (strTrim id).length = 0
  · rw [getTenant, if_pos hblank]
    rw [getTenant, if_pos hblank]
    exact ⟨rfl, rfl, by simp, fun h => absurd hblank h⟩
  · have hfirst : getTenant store ttl cache now id
        = (.ok none, fun x => if x = id then some ⟨none, now + ttl⟩ else cache x, 1) := by
      rw [getTenant, if_neg hblank, hcache, habs]
    rw [hfirst]
    have hsecond : getTenant store ttl
        (fun x => if x = id then some ⟨none, now + ttl⟩ else cache x) t2 id
        = (.ok none, fun x => if x = id then some ⟨none, now + ttl⟩ else cache x, 0) := by
      rw [getTenant, if_neg hblank]
      simp [h2]
    rw [hsecond]
    exact ⟨rfl, rfl, by simp, fun _ => ⟨rfl, rfl⟩⟩

/-- Witness for C9: the id `ghost` is absent from an empty store; with the
default five-minute TTL, the first call at time 0 queries the store once and
the immediate second call at time 1 is a cache hit, both returning `null`. -/
theorem C9_negative_caching_witness :
    (getTenant storeEmptyW TENANT_CACHE_TTL_MS cacheEmptyW 0 "ghost").1
      = .ok none ∧
    (getTenant storeEmptyW TENANT_CACHE_TTL_MS
      (getTenant storeEmptyW TENANT_CACHE_TTL_MS cacheEmptyW 0 "ghost").2.1
      1 "ghost").1 = .ok none ∧
    (getTenant storeEmptyW TENANT_CACHE_TTL_MS cacheEmptyW 0 "ghost").2.2 = 1 ∧
    (getTenant storeEmptyW TENANT_CACHE_TTL_MS
      (getTenant storeEmptyW TENANT_CACHE_TTL_MS cacheEmptyW 0 "ghost").2.1
      1 "ghost").2.2 = 0 := by
  obtain ⟨hA, hB, _, hD⟩ := C9_negative_caching storeEmptyW TENANT_CACHE_TTL_MS
    cacheEmptyW 0 1 "ghost" rfl rfl (by decide)
  obtain ⟨hD1, hD2⟩ := hD (by decide)
  exact ⟨hA, hB, hD1, hD2⟩

/-- C4: within one session (fixed tenant and session id), a `get_cart`
executed immediately after a successful `add_to_cart`, with no intervening
mutation or session change, succeeds and reports exactly the cart id the
`add_to_cart` result produced: the executor's session-to-cart map (or, for a
cart id inherited from the request context, the context fallback of
`getCartId`) hands the same id to the subsequent `get_cart`. -/
theorem C4_cart_continuity (w : AgentWorld) (st : ExecState)
    (ctx : AgentContext) (input : ToolInput)
    (h : (execute "add_to_cart" input ctx st w).1.success = true) :
    (execute "get_cart" {} ctx
        (execute "add_to_cart" input ctx st w).2.1
        (execute "add_to_cart" input ctx st w).2.2).1.success = true ∧
    (execute "add_to_cart" input ctx st w).1.dataCartId.isSome = true ∧
    (execute "get_cart" {} ctx
        (execute "add_to_cart" input ctx st w).2.1
        (execute "add_to_cart" input ctx st w).2.2).1.dataCartId
      = (execute "add_to_cart" input ctx st w).1.dataCartId := by
  rcases hv : strTruthy input.variantId with _ | vid
  · exfalso
    rw [execute, executeInner_add_to_cart, addToCartTool] at h
    simp only [hv] at h
    simp [failRes] at h
  · rcases ht : w.tenants ctx.tenantId with _ | t
    · exfalso
      rw [execute, executeInner_add_to_cart, addToCartTool] at h
      simp only [hv, ht] at h
      simp [failRes] at h
    · by_cases hcfg : storefrontConfigured t = true
      · rcases hc : getCartIdOf st ctx with _ | c
        · -- no session cart: a fresh cart is created and remembered
          have hE : execute "add_to_cart" input ctx st w
              = (okRes (.cartData (freshCartId w.shop.nextCartId)
                    (checkoutUrlOf (freshCartId w.shop.nextCartId))
                    [⟨vid, jsOrQ input.quantity 1⟩]
                    (some "Added item(s) to cart")),
                  setCartIdOf st ctx (freshCartId w.shop.nextCartId),
                  { w with shop :=
                    ⟨(freshCartId w.shop.nextCartId,
                        [⟨vid, jsOrQ input.quantity 1⟩]) :: w.shop.carts,
                      w.shop.nextCartId + 1,
                      w.shop.log ++ [.createCart [⟨vid, jsOrQ input.quantity 1⟩]]⟩ }) := by
            rw [execute, executeInner_add_to_cart, addToCartTool]
            simp only [hv, ht, hcfg, if_true, hc, sfCreateCart]
          have hc2 : getCartIdOf
              (setCartIdOf st ctx (freshCartId w.shop.nextCartId)) ctx
              = some (freshCartId w.shop.nextCartId) := by
            simp [getCartIdOf, setCartIdOf,
              freshCartId_ne_empty w.shop.nextCartId]
          have hl2 : lookupCart
              ((freshCartId w.shop.nextCartId,
                  [⟨vid, jsOrQ input.quantity 1⟩]) :: w.shop.carts)
              (freshCartId w.shop.nextCartId)
              = some [⟨vid, jsOrQ input.quantity 1⟩] := by
            simp [lookupCart]
          rw [hE]
          dsimp only
          rw [getCart_known
            { w with shop :=
              ⟨(freshCartId w.shop.nextCartId,
                  [⟨vid, jsOrQ input.quantity 1⟩]) :: w.shop.carts,
                w.shop.nextCartId + 1,
                w.shop.log ++ [.createCart [⟨vid, jsOrQ input.quantity 1⟩]]⟩ }
            (setCartIdOf st ctx (freshCartId w.shop.nextCartId)) ctx
            (freshCartId w.shop.nextCartId) t
            [⟨vid, jsOrQ input.quantity 1⟩] hc2 ht hcfg hl2]
          exact ⟨rfl, rfl, rfl⟩
        · -- session cart already known: lines are appended to it
          rcases hl : lookupCart w.shop.carts c with _ | old
          · exfalso
            rw [execute, executeInner_add_to_cart, addToCartTool] at h
            simp only [hv, ht, hcfg, if_true, hc, sfAddToCart, hl] at h
            simp [failRes] at h
          · have hE : execute "add_to_cart" input ctx st w
                = (okRes (.cartData c (checkoutUrlOf c)
                      (old ++ [⟨vid, jsOrQ input.quantity 1⟩])
                      (some "Added item(s) to cart")),
                    st,
                    { w with shop :=
                      ⟨setCart w.shop.carts c (old ++ [⟨vid, jsOrQ input.quantity 1⟩]),
                        w.shop.nextCartId,
                        w.shop.log ++ [.addLines c [⟨vid, jsOrQ input.quantity 1⟩]]⟩ }) := by
              rw [execute, executeInner_add_to_cart, addToCartTool]
              simp only [hv, ht, hcfg, if_true, hc, sfAddToCart, hl]
            have hl2 : lookupCart
                (setCart w.shop.carts c (old ++ [⟨vid, jsOrQ input.quantity 1⟩])) c
                = some (old ++ [⟨vid, jsOrQ input.quantity 1⟩]) :=
              lookupCart_setCart w.shop.carts c _ old hl
            rw [hE]
            dsimp only
            rw [getCart_known
              { w with shop :=
                ⟨setCart w.shop.carts c (old ++ [⟨vid, jsOrQ input.quantity 1⟩]),
                  w.shop.nextCartId,
                  w.shop.log ++ [.addLines c [⟨vid, jsOrQ input.quantity 1⟩]]⟩ }
              st ctx c t
              (old ++ [⟨vid, jsOrQ input.quantity 1⟩]) hc ht hcfg hl2]
            exact ⟨rfl, rfl, rfl⟩
      · exfalso
        rw [Bool.not_eq_true] at hcfg
        rw [execute, executeInner_add_to_cart, addToCartTool] at h
        simp only [hv, ht, hcfg, if_false] at h
        simp [failRes] at h

/-- Witness for C4: adding variant `v1` in a fresh session of tenant `t1`
succeeds, and the immediately following `get_cart` reports the same cart id
that the `add_to_cart` result carried. -/
theorem C4_cart_continuity_witness :
    ((execute "add_to_cart" { variantId := some "v1" } ctxW stEmpty worldW).1.success
      = true) ∧
    (execute "get_cart" {} ctxW
        (execute "add_to_cart" { variantId := some "v1" } ctxW stEmpty worldW).2.1
        (execute "add_to_cart" { variantId := some "v1" } ctxW stEmpty worldW).2.2).1.dataCartId
      = (execute "add_to_cart" { variantId := some "v1" } ctxW stEmpty worldW).1.dataCartId := by
  have h : (execute "add_to_cart" { variantId := some "v1" } ctxW stEmpty
      worldW).1.success = true := rfl
  obtain ⟨_, _, hC⟩ := C4_cart_continuity worldW stEmpty ctxW
    { variantId := some "v1" } h
  exact ⟨h, hC⟩

/-- C10: `add_to_cart` coerces every falsy quantity input (absent, `null`,
`NaN` or an explicit `0`) to 1 before calling the commerce platform: the
single storefront call it makes carries exactly one line with the given
variant and quantity `jsOrQ quantity 1`, which equals 1 whenever the input
is falsy and is never 0 for any input, so no zero-quantity cart line can be
created through this tool. -/
theorem C10_quantity_coercion (w : AgentWorld) (st : ExecState)
    (ctx : AgentContext) (vid : String) (q : JsNum) (t : TenantM)
    (hv : vid ≠ "") (ht : w.tenants ctx.tenantId = some t)
    (hcfg : storefrontConfigured t = true)
    (hcart : ∀ c, getCartIdOf st ctx = some c →
      (lookupCart w.shop.carts c).isSome = true) :
    (execute "add_to_cart" { variantId := some vid, quantity := q } ctx st w).2.2.shop.log
      = w.shop.log ++ [
        match getCartIdOf st ctx with
        | some c => StorefrontCall.addLines c [⟨vid, jsOrQ q 1⟩]
        | none => StorefrontCall.createCart [⟨vid, jsOrQ q 1⟩]] ∧
    (q.truthy = false → jsOrQ q 1 = 1) ∧
    (∀ v : JsNum, jsOrQ v 1 ≠ 0) := by
  have hvt : strTruthy (some vid) = some vid := by
    rw [strTruthy, if_neg hv]
  refine ⟨?_, ?_, ?_⟩
  · rw [execute, executeInner_add_to_cart]
    rcases hc : getCartIdOf st ctx with _ | c
    · rw [addToCartTool]
      simp only [hvt, ht, hcfg, if_true, hc]
      rfl
    · have hlook := hcart c hc
      rcases hl : lookupCart w.shop.carts c with _ | old
      · rw [hl] at hlook
        simp at hlook
      · rw [addToCartTool]
        simp only [hvt, ht, hcfg, if_true, hc, sfAddToCart, hl]
  · intro hfalsy
    cases q with
    | num x =>
      rw [JsNum.truthy] at hfalsy
      simp at hfalsy
      subst hfalsy
      rfl
    | undef => rfl
    | null => rfl
    | nan => rfl
  · intro v
    cases v with
    | num x =>
      by_cases hx : x = 0
      · subst hx
        show (1 : ℚ) ≠ 0
        norm_num
      · show (if x = 0 then (1 : ℚ) else x) ≠ 0
        rw [if_neg hx]
        exact hx
    | undef => show (1 : ℚ) ≠ 0; norm_num
    | null => show (1 : ℚ) ≠ 0; norm_num
    | nan => show (1 : ℚ) ≠ 0; norm_num

/-- Witness for C10: adding variant `v1` with an explicit quantity of 0 in a
fresh session creates a cart whose single storefront call carries quantity
exactly 1. -/
theorem C10_quantity_coercion_witness :
    (execute "add_to_cart" { variantId := some "v1", quantity := JsNum.num 0 }
        ctxW stEmpty worldW).2.2.shop.log
      = [StorefrontCall.createCart [⟨"v1", 1⟩]] ∧
    jsOrQ (JsNum.num 0) 1 = 1 := by
  obtain ⟨hA, hB, _⟩ := C10_quantity_coercion worldW stEmpty ctxW "v1"
    (JsNum.num 0) tenantW (by decide) rfl rfl
    (fun c hc => by simp [getCartIdOf, stEmpty, ctxW] at hc)
  constructor
  · rw [hA]
    have h1 : getCartIdOf stEmpty ctxW = none := rfl
    rw [h1]
    have h2 : jsOrQ (JsNum.num 0) 1 = 1 := rfl
    rw [h2]
    rfl
  · rfl

/-- C8: `search_products` requires a non-empty query and fails otherwise;
for a non-empty query it serves the tenant's indexed catalog first, leaving
the commerce platform untouched whenever the index has hits; it falls back
to the live storefront search only when the index returned zero hits and the
tenant is configured for it; and when the index is empty and no storefront
is configured it returns a success result with an empty product list and an
explanatory message, never an error for the no-results case. -/
theorem C8_search_products_fallback :
    (∀ (w : AgentWorld) (input : ToolInput) (ctx : AgentContext),
      nonBlankQuery input.query = none →
      searchProductsTool w input ctx
        = .ok (failRes "Search query is required", w)) ∧
    (∀ (w : AgentWorld) (input : ToolInput) (ctx : AgentContext) (q : String),
      nonBlankQuery input.query = some q →
      w.ragProducts ctx.tenantId q (jsOrQ input.limit 5) ≠ [] →
      searchProductsTool w input ctx
        = .ok (okRes (.dbProducts
            ((w.ragProducts ctx.tenantId q (jsOrQ input.limit 5)).map
              ragToToolProduct)), w)) ∧
    (∀ (w : AgentWorld) (input : ToolInput) (ctx : AgentContext) (q : String)
        (t : TenantM),
      nonBlankQuery input.query = some q →
      w.ragProducts ctx.tenantId q (jsOrQ input.limit 5) = [] →
      w.tenants ctx.tenantId = some t →
      storefrontConfigured t = false →
      searchProductsTool w input ctx
        = .ok (okRes (.noProducts "No products found"), w)) ∧
    (∀ (w : AgentWorld) (input : ToolInput) (ctx : AgentContext) (q : String)
        (t : TenantM),
      nonBlankQuery input.query = some q →
      w.ragProducts ctx.tenantId q (jsOrQ input.limit 5) = [] →
      w.tenants ctx.tenantId = some t →
      storefrontConfigured t = true →
      searchProductsTool w input ctx
        = .ok (okRes (.liveProducts
            ((w.liveProducts q (jsOrQ input.limit 5)).map formatProduct)),
          { w with shop :=
            { w.shop with log := w.shop.log ++ [.searchLive q] } })) := by
  refine ⟨?_, ?_, ?_, ?_⟩
  · intro w input ctx hq
    rw [searchProductsTool, hq]
  · intro w input ctx q hq hrag
    rw [searchProductsTool, hq]
    simp only [hrag, if_true, ne_eq, not_false_eq_true, if_pos]
  · intro w input ctx q t hq hrag ht hcfg
    rw [searchProductsTool, hq]
    simp only [hrag, ht, hcfg, ne_eq, not_true_eq_false, if_false, if_neg,
      Bool.false_eq_true]
  · intro w input ctx q t hq hrag ht hcfg
    rw [searchProductsTool, hq]
    simp only [hrag, ht, hcfg, ne_eq, not_true_eq_false, if_false, if_true]

/-- Witness for C8 at concrete inputs: a blank query fails; with an indexed
hit the result is served from the database; tenant `t2` (no storefront)
yields the empty-list success; tenant `t1` (storefront configured) yields
the live-search success. -/
theorem C8_search_products_fallback_witness :
    searchProductsTool worldW { query := some " " } ctxW
      = .ok (failRes "Search query is required", worldW) ∧
    searchProductsTool worldRag { query := some "shoes" } ctxW
      = .ok (okRes (.dbProducts [ragToToolProduct ragHitW]), worldRag) ∧
    searchProductsTool worldW { query := some "shoes" } ⟨"t2", "s1", none⟩
      = .ok (okRes (.noProducts "No products found"), worldW) ∧
    searchProductsTool worldW { query := some "shoes" } ctxW
      = .ok (okRes (.liveProducts []),
        { worldW with shop :=
          { worldW.shop with log := worldW.shop.log ++ [.searchLive "shoes"] } }) := by
  refine ⟨?_, ?_, ?_, ?_⟩
  · exact C8_search_products_fallback.1 worldW { query := some " " } ctxW rfl
  · exact C8_search_products_fallback.2.1 worldRag { query := some "shoes" }
      ctxW "shoes" rfl (by decide)
  · exact C8_search_products_fallback.2.2.1 worldW { query := some "shoes" }
      ⟨"t2", "s1", none⟩ "shoes" tenantBare rfl rfl rfl rfl
  · exact C8_search_products_fallback.2.2.2 worldW { query := some "shoes" }
      ctxW "shoes" tenantW rfl rfl rfl rfl

/-- C6 counterexample: the claim asserts that any non-429 non-2xx response
fails immediately without retry (a single upstream call).  On the code, a
500 response whose error body detail is "fetch" composes the thrown message
`Voyage AI Embeddings API error 500: fetch`, which the catch block's
`message.includes('fetch')` heuristic classifies as retryable: the request
is retried with exponential backoff and three upstream calls are made, not
one, before the terminal error. -/
theorem C6_retry_policy_counterexample :
    fetchWithRetry script500fetch
      = ⟨.error (errMsg 500 "fetch"), 3, [1000, 2000]⟩ ∧
    (fetchWithRetry script500fetch).calls ≠ 1 := by
  constructor
  · rfl
  · intro h
    rw [show fetchWithRetry script500fetch
        = ⟨.error (errMsg 500 "fetch"), 3, [1000, 2000]⟩ from rfl] at h
    simp at h

/-- C6 (amended): a 429 response is retried with exponential backoff,
honoring a `Retry-After` header, up to 3 total attempts, and exhausting the
retries raises a terminal error carrying the upstream status; 429 twice then
success makes exactly 3 upstream calls with the vector returned and no error.
A non-2xx non-429 response fails immediately without retry *provided* the
composed error message `Voyage AI Embeddings API error <status>: <detail>`
contains neither "429" nor "fetch"; when the body text contains one of those
substrings the catch block's retryable-error heuristic misfires and the
response is retried like a rate limit (see the counterexample). -/
theorem C6_retry_policy :
    (∀ (script : Upstream) (ra0 ra1 : Option Nat) (d0 d1 : String)
        (item : TaggedVec) (rest : List TaggedVec) (text : String),
      script 0 = .http 429 ra0 d0 →
      script 1 = .http 429 ra1 d1 →
      script 2 = .ok (item :: rest) →
      (strTrim text).length ≠ 0 →
      embed script text = (.ok item.vec, 3) ∧
      fetchWithRetry script
        = ⟨.ok (item :: rest), 3, [rateLimitDelay ra0 0, rateLimitDelay ra1 1]⟩) ∧
    (∀ (script : Upstream) (code : Nat) (ra : Option Nat) (detail : String),
      script 0 = .http code ra detail →
      strIncludes (errMsg code detail) "429" = false →
      strIncludes (errMsg code detail) "fetch" = false →
      fetchWithRetry script = ⟨.error (errMsg code detail), 1, []⟩) ∧
    (∀ (script : Upstream) (ra0 ra1 ra2 : Option Nat) (d0 d1 d2 : String),
      script 0 = .http 429 ra0 d0 →
      script 1 = .http 429 ra1 d1 →
      script 2 = .http 429 ra2 d2 →
      fetchWithRetry script
        = ⟨.error (errMsg 429 d2), 3, [rateLimitDelay ra0 0, rateLimitDelay ra1 1]⟩) := by
  refine ⟨?_, ?_, ?_⟩
  · intro script ra0 ra1 d0 d1 item rest text hs0 hs1 hs2 htext
    have hfetch : fetchWithRetry script
        = ⟨.ok (item :: rest), 3, [rateLimitDelay ra0 0, rateLimitDelay ra1 1]⟩ := by
      rw [fetchWithRetry]
      simp [fetchLoop, hs0, hs1, hs2, MAX_RETRIES]
    refine ⟨?_, hfetch⟩
    rw [embed, if_neg htext, hfetch]
  · intro script code ra detail hs0 h429 hfetch
    have hc : ¬ (code = 429) := by
      intro hcode
      subst hcode
      rw [errMsg_429_includes detail] at h429
      exact absurd h429 (by decide)
    rw [fetchWithRetry]
    simp [fetchLoop, hs0, hc, h429, hfetch, MAX_RETRIES]
  · intro script ra0 ra1 ra2 d0 d1 d2 hs0 hs1 hs2
    rw [fetchWithRetry]
    simp [fetchLoop, hs0, hs1, hs2, MAX_RETRIES]

/-- Witness for C6 at concrete scripts: two 429s then success yields the
vector after exactly 3 calls with the Retry-After delay honored; a bare 503
fails after a single call; three 429s exhaust the retries with a terminal
429 error. -/
theorem C6_retry_policy_witness :
    embed script429twice "hello" = (.ok [5], 3) ∧
    fetchWithRetry script503
      = ⟨.error (errMsg 503 "service unavailable"), 1, []⟩ ∧
    fetchWithRetry script429all
      = ⟨.error (errMsg 429 "c"), 3,
        [rateLimitDelay none 0, rateLimitDelay none 1]⟩ := by
  refine ⟨?_, ?_, ?_⟩
  · exact (C6_retry_policy.1 script429twice (some 7) (some 7) "rate limited"
      "rate limited" ⟨0, [5]⟩ [] "hello" rfl rfl rfl (by decide)).1
  · exact C6_retry_policy.2.1 script503 503 none "service unavailable"
      rfl (by decide) (by decide)
  · exact C6_retry_policy.2.2 script429all none none none "a" "b" "c"
      rfl rfl rfl

/-- C3 counterexample: the claim asserts that for every list of 1 to 300
texts the i-th output vector corresponds to `texts[i]` regardless of the
order of the provider's index-tagged embeddings.  On the code this fails
twice.  First, blank texts are filtered out before chunking, so for
`["a", " "]` the output has length 1 and cannot align with the input
positions.  Second, the code pairs response entries with request entries
positionally and never reads the provider's index tags: for `["a", "bb"]`
and a provider that returns its (correctly tagged) embeddings in reverse
order, the output is `[embedOf "bb", embedOf "a"]` — position 0 carries the
embedding of `texts[1]`. -/
theorem C3_embedBatch_order_counterexample :
    (embedBatch provHonest ["a", " "]).result = .ok [[1]] ∧
    ¬ ((embedBatch provHonest ["a", " "]).result
        = .ok [embedOf (strTrim "a"), embedOf (strTrim " ")]) ∧
    (embedBatch provPerm ["a", "bb"]).result
      = .ok [embedOf "bb", embedOf "a"] ∧
    embedOf "bb" ≠ embedOf "a" := by
  refine ⟨rfl, by decide, rfl, by decide⟩

/-- C3 (amended): for every non-empty input list in which every text is
non-blank after trimming (in particular any such list of 1 to 300 texts),
and a provider that returns one embedding per input in request order,
`embedBatch` partitions the trimmed texts into chunks of at most 128 items,
issues exactly one provider call per chunk (the concatenation of the issued
calls is the trimmed input), and returns one vector per text with the i-th
output vector the embedding of `texts[i]`.  The original claim's tolerance
of blank texts and of out-of-order provider responses does not hold on the
code (see the counterexample): the output skips blank texts, and the
reassembly is positional, ignoring the provider's index tags. -/
theorem C3_embedBatch_order (f : String → Vec) (provider : EmbedProvider)
    (texts : List String)
    (hprov : ∀ input, provider input
      = (withIdx 0 input).map (fun p => TaggedVec.mk p.1 (f p.2)))
    (hne : 1 ≤ texts.length)
    (htexts : ∀ t ∈ texts, (strTrim t).length ≠ 0) :
    (embedBatch provider texts).result
      = .ok (texts.map (fun t => f (strTrim t))) ∧
    (embedBatch provider texts).calls.flatten = texts.map strTrim ∧
    (∀ c ∈ (embedBatch provider texts).calls, c.length ≤ MAX_BATCH_SIZE) := by
  have htne : texts ≠ [] := by
    intro h
    subst h
    simp at hne
  have hVfull : nonEmptyOf texts = validTextsOf texts := by
    rw [nonEmptyOf]
    apply List.filter_eq_self.mpr
    intro p hp
    rw [validTextsOf] at hp
    obtain ⟨q, hq, hpq⟩ := List.mem_map.mp hp
    subst hpq
    have hmem : q.2 ∈ texts := withIdx_mem 0 texts q hq
    have hlen := htexts q.2 hmem
    simp only [decide_eq_true_eq]
    omega
  have hNEne : nonEmptyOf texts ≠ [] := by
    rw [hVfull]
    intro h
    have hlen := congrArg List.length h
    rw [validTextsOf, List.length_map, withIdx_length] at hlen
    simp only [List.length_nil] at hlen
    omega
  have hres : (chunksOf MAX_BATCH_SIZE (nonEmptyOf texts)).foldl
      (fun acc chunk => acc ++ chunkResults provider chunk) []
      = (nonEmptyOf texts).map (fun c => (f c.1, c.2)) := by
    rw [foldl_append_flatten (chunkResults provider), List.nil_append]
    have hg : (chunksOf MAX_BATCH_SIZE (nonEmptyOf texts)).map
        (chunkResults provider)
        = (chunksOf MAX_BATCH_SIZE (nonEmptyOf texts)).map
          (fun chunk => chunk.map (fun c => (f c.1, c.2))) := by
      apply List.map_congr_left
      intro chunk _
      rw [chunkResults, hprov]
      exact zipWith_honest f chunk 0
    rw [hg, map_flatten_swap, chunksOf_flatten MAX_BATCH_SIZE (by decide)
      (nonEmptyOf texts).length (nonEmptyOf texts) (Nat.le_refl _)]
  have hpw : ((nonEmptyOf texts).map (fun c => ((f c.1, c.2) : Vec × Nat))).Pairwise
      (fun a b => a.2 ≤ b.2) := by
    have h0 : (withIdx 0 texts).Pairwise (fun a b => a.1 < b.1) :=
      withIdx_pairwise 0 texts
    have h1 : (validTextsOf texts).Pairwise (fun a b => a.2 < b.2) := by
      rw [validTextsOf]
      exact List.Pairwise.map _ (fun a b hab => hab) h0
    have h2 : (nonEmptyOf texts).Pairwise (fun a b => a.2 < b.2) := by
      rw [nonEmptyOf]
      exact List.Pairwise.sublist (List.filter_sublist _) h1
    exact List.Pairwise.map _ (fun a b hab => Nat.le_of_lt hab) h2
  rw [embedBatch, if_neg htne, if_neg hNEne]
  dsimp only
  rw [hres, sortByIdx_sorted _ hpw]
  refine ⟨?_, ?_, ?_⟩
  · rw [List.map_map, hVfull, validTextsOf, List.map_map]
    exact congrArg Except.ok (withIdx_map_snd (fun t => f (strTrim t)) 0 texts)
  · rw [map_flatten_swap (fun x : String × Nat => x.1),
      chunksOf_flatten MAX_BATCH_SIZE (by decide)
        (nonEmptyOf texts).length (nonEmptyOf texts) (Nat.le_refl _),
      hVfull, validTextsOf, List.map_map]
    exact withIdx_map_snd (fun t => strTrim t) 0 texts
  · intro c hc
    obtain ⟨chunk, hchunk, hcc⟩ := List.mem_map.mp hc
    subst hcc
    rw [List.length_map]
    exact chunksOf_mem_length MAX_BATCH_SIZE (nonEmptyOf texts).length
      (nonEmptyOf texts) (Nat.le_refl _) chunk hchunk

/-- Witness for C3 (amended) at a concrete batch: three non-blank texts with
an in-order provider produce their three embeddings in input order, with
every issued call within the batch-size limit. -/
theorem C3_embedBatch_order_witness :
    (embedBatch provHonest ["a", "bb", "ccc"]).result
      = .ok [[1], [2], [3]] ∧
    (embedBatch provHonest ["a", "bb", "ccc"]).calls.flatten
      = ["a", "bb", "ccc"] ∧
    (∀ c ∈ (embedBatch provHonest ["a", "bb", "ccc"]).calls,
      c.length ≤ MAX_BATCH_SIZE) := by
  obtain ⟨h1, h2, h3⟩ := C3_embedBatch_order embedOf provHonest
    ["a", "bb", "ccc"] (fun input => rfl) (by decide) (by decide)
  refine ⟨?_, ?_, h3⟩
  · rw [h1]
    rfl
  · rw [h2]
    rfl

end ClaimTheorems

end SCB
